import Mathlib

/-!
# The array bridge of pywinrt

A shallow embedding of `src/strings/winrt_array.cpp`: the constructor
`Array_tp_new`, the sequence slots `Array_sq_length` / `Array_sq_item`, the
buffer export `Array_bf_getbuffer` and the destructor `Array_tp_dealloc`.

Conventions of the embedding.

* A C function that returns `nullptr` (or `-1`) with a Python exception set is
  a result carrying that exception; dereferencing a null `self->array` is the
  result `undefined`.
* `Py_ssize_t` is the signed 64-bit type of a 64-bit build; `uint32_t`
  conversions are written as `% 2 ^ 32`.
* `py::Array` / `py::ComArray<T>` live in `pybase.h`, which is not part of the
  sources at hand; they are modelled from the design document and every such
  definition says so in its doc comment.
* What the CPython API does (`PyNumber_AsSsize_t`, `PyBuffer_ToContiguous`,
  `PyBuffer_Release`, `Py_DECREF`, the `PyBUF_*` flag values) follows the
  CPython C-API documentation.
-/

namespace WinrtArray

/-! ## Host runtime values -/

/-- One byte of element memory. -/
abbrev Byte := Fin 256

/-- The exception classes the bridge raises or tests for; any other class is
`Other name`. -/
inductive PyExc where
  | TypeError
  | ValueError
  | OverflowError
  | MemoryError
  | BufferError
  | IndexError
  | AttributeError
  | Other (name : String)
  deriving DecidableEq

/-- A pending Python exception: its class and its message. -/
structure PyErr where
  exc : PyExc
  msg : String
  deriving DecidableEq

/-- The outcome of a C entry point: a value, `nullptr` with an exception set,
or undefined behaviour (a null `self->array` was dereferenced). -/
inductive Outcome (α : Type) where
  | ok (val : α)
  | raised (e : PyErr)
  | undefined

/-- The closed set of element kinds (one per `py::ComArray<T>` instantiation
made by `Array_tp_new`). -/
inductive ElementKind where
  | Bool
  | Int8
  | UInt8
  | Int16
  | UInt16
  | Int32
  | UInt32
  | Int64
  | UInt64
  | Float32
  | Float64
  | Char16
  | String
  | Guid
  | DateTime
  | TimeSpan
  | Point
  | Size
  | Rect
  | ObjectRef
  deriving DecidableEq

/-- The part of the process the constructor depends on but does not control. -/
structure Env where
  /-- The result of `subtype->tp_alloc(subtype, 0)`: the address of the new
  instance, or `none` when the host cannot allocate it. -/
  tp_alloc : Option Nat
  /-- The storage allocator: the address of a fresh block of the given number
  of bytes, or `none` when the block cannot be allocated. -/
  malloc : Nat → Option Nat
  /-- The canonical format descriptor of the eight kinds that have no
  single-character code (the design document does not list them). -/
  structFormat : ElementKind → String

/-! ## `py::ComArray<T>` (pybase.h) -/

/-- Modelled from the spec: `py::Array::ValueSize()` of pybase.h, the fixed
byte width of a kind ("each kind has a fixed byte width"; "ObjectRef: element
width equals a native pointer width"). The widths are the sizes of the element
types `Array_tp_new` instantiates `py::ComArray` with, on a 64-bit build. -/
def ValueSize : ElementKind → Nat
  | .Bool => 1
  | .Int8 => 1
  | .UInt8 => 1
  | .Int16 => 2
  | .UInt16 => 2
  | .Int32 => 4
  | .UInt32 => 4
  | .Int64 => 8
  | .UInt64 => 8
  | .Float32 => 4
  | .Float64 => 8
  | .Char16 => 2
  | .String => 8
  | .Guid => 16
  | .DateTime => 8
  | .TimeSpan => 8
  | .Point => 8
  | .Size => 8
  | .Rect => 16
  | .ObjectRef => 8

/-- Modelled from the spec: `py::Array::Format()` of pybase.h, the canonical
format descriptor of a kind. For the twelve kinds with a single-character code
it is that code ("`FormatDescriptor()` equals the original descriptor"); for
the other kinds it is whatever the build supplies. -/
def Format (env : Env) : ElementKind → String
  | .Bool => "?"
  | .Int8 => "b"
  | .UInt8 => "B"
  | .Int16 => "h"
  | .UInt16 => "H"
  | .Int32 => "i"
  | .UInt32 => "I"
  | .Int64 => "q"
  | .UInt64 => "Q"
  | .Float32 => "f"
  | .Float64 => "d"
  | .Char16 => "u"
  | k => env.structFormat k

/-- Modelled from the spec: the per-kind converter pair of pybase.h ("Element
Converter Strategies": `encode` turns a host value into the bytes of one slot
or fails, `decode` turns the bytes of one slot into a host value or fails).
`V` is the type of host values. An encoding fills exactly one slot. -/
structure Converter (V : Type) where
  encode : ElementKind → V → Except PyErr (List Byte)
  decode : ElementKind → List Byte → Except PyErr V
  encode_length : ∀ k v bs, encode k v = Except.ok bs → bs.length = ValueSize k

/-- Modelled from the spec: `py::ComArray<T>` of pybase.h ("Typed Array
Storage": one contiguous buffer of `count` elements of one kind). `count` is
`Size()`, `data` is the address `Data()` returns and `bytes` is the memory at
that address. -/
structure ComArray where
  kind : ElementKind
  count : Nat
  data : Nat
  bytes : List Byte

/-- Modelled from the spec: a default-constructed `py::ComArray<T>`, which
holds no elements (`EmptyConstruct(kind)`: count = 0). -/
def ComArray.empty (k : ElementKind) : ComArray :=
  { kind := k, count := 0, data := 0, bytes := [] }

/-- The largest value of `size_t` on a 64-bit build. -/
def SIZE_MAX : Nat := 2 ^ 64 - 1

/-- Modelled from the spec: `py::Array::Alloc(count)` of pybase.h
("`Allocate(count) -> ok|Error(OverflowError|AllocationError)`: validates
`count * elementByteWidth` does not overflow; zero-fills on success"). -/
def ComArray.Alloc (env : Env) (a : ComArray) (count : Nat) : Except PyErr ComArray :=
  if SIZE_MAX < count * ValueSize a.kind then
    Except.error { exc := PyExc.OverflowError, msg := "array size overflows" }
  else
    match env.malloc (count * ValueSize a.kind) with
    | none => Except.error { exc := PyExc.MemoryError, msg := "" }
    | some p =>
      Except.ok { kind := a.kind, count := count, data := p,
                  bytes := List.replicate (count * ValueSize a.kind) 0 }

/-- The bytes of slot `i` when every slot is `w` bytes wide. -/
def slot (w : Nat) (bytes : List Byte) (i : Nat) : List Byte :=
  (bytes.drop (i * w)).take w

/-- The buffer `bytes` with slot `i` (of width `w`) overwritten by `new`. -/
def writeSlot (w : Nat) (bytes : List Byte) (i : Nat) (new : List Byte) : List Byte :=
  bytes.take (i * w) ++ new ++ bytes.drop (i * w + w)

/-- Modelled from the spec: `py::Array::Set(index, value)` of pybase.h
("`Set(index, value)`: delegate to the kind's converter; bounds-check first,
failing with an index-error otherwise"). -/
def ComArray.Set {V : Type} (conv : Converter V) (a : ComArray) (i : Nat) (v : V) :
    Except PyErr ComArray :=
  if i < a.count then
    match conv.encode a.kind v with
    | Except.error e => Except.error e
    | Except.ok bs =>
      Except.ok { a with bytes := writeSlot (ValueSize a.kind) a.bytes i bs }
  else
    Except.error { exc := PyExc.IndexError, msg := "index out of range" }

/-- The Python wrapper `struct Array`: the object header (`PyObject_HEAD`, of
which the reference count is kept, together with the address of the object)
and the owned `std::unique_ptr<py::Array>`, `none` when it is null. -/
structure Array where
  ob_refcnt : Nat
  addr : Nat
  array : Option ComArray

/-- The type objects `Array_tp_new` compares a type argument with. -/
inductive TypeIdentity where
  | PyUnicode_Type
  | DateTimeType
  | DeltaType
  | Point
  | Size
  | Rect
  | Object
  | unrelated
  deriving DecidableEq

/-- The result of `PyObject_GetAttrString(arg0, "_assign_array_")`. When the
attribute exists, `call` is the result of calling it with the new instance:
an exception, or a normal return with `self->array` left as given (a hook
installs a storage through `Array_Assign`, or leaves the pointer null). -/
inductive AttrLookup where
  | found (call : Except PyErr (Option ComArray))
  | failed (e : PyErr)

/-- A type object passed as first argument. -/
structure PyTypeObject where
  tp_name : String
  identity : TypeIdentity
  assign_array : AttrLookup

/-- The first constructor argument, as `Array_tp_new` inspects it. -/
inductive Arg0 where
  | str (s : String)
  | type (t : PyTypeObject)
  | other

/-- The fields of `Py_buffer` (CPython). `buf` is an address, `obj` the
address of the owning object (`none` for `NULL`); `format`, `shape`, `strides`
and `suboffsets` are `none` for `NULL`. -/
structure Py_buffer where
  buf : Nat
  obj : Option Nat
  len : Nat
  itemsize : Nat
  readonly : Int
  ndim : Int
  format : Option String
  shape : Option (List Nat)
  strides : Option (List Nat)
  suboffsets : Option (List Nat)
  internal : Nat

/-- A view filled in by `PyObject_GetBuffer(arg1, &view, PyBUF_FULL_RO)`
together with the exporter's memory in C-contiguous order, which holds
`view.len` bytes. -/
structure Exported where
  view : Py_buffer
  mem : List Byte
  mem_length : mem.length = view.len

/-- The result of the `nb_index` slot (`__index__`) of an object. -/
inductive IndexResult where
  | value (n : Int)
  | raises (e : PyErr)

/-- The second constructor argument, as `Array_tp_new` inspects it: an exact
list, an exact tuple, or any other object with its type name, its `nb_index`
slot (if `PyIndex_Check` holds) and its `bf_getbuffer` slot (if
`PyObject_CheckBuffer` holds, with the result of `PyObject_GetBuffer`).
Exact lists and tuples have neither slot. -/
inductive Arg1 (V : Type) where
  | list (items : List V)
  | tuple (items : List V)
  | object (tp_name : String) (nb_index : Option IndexResult)
      (bf_getbuffer : Option (Except PyErr Exported))

/-! ## CPython API -/

/-- The largest `Py_ssize_t` of a 64-bit build. -/
def PY_SSIZE_T_MAX : Int := 2 ^ 63 - 1

/-- The smallest `Py_ssize_t` of a 64-bit build. -/
def PY_SSIZE_T_MIN : Int := -(2 ^ 63)

/-- CPython `PyNumber_AsSsize_t(o, PyExc_OverflowError)`: the value of
`__index__` when it fits `Py_ssize_t`; otherwise `-1` with the exception of
`__index__`, or with `OverflowError` when the integer does not fit. -/
def PyNumber_AsSsize_t (tp_name : String) : IndexResult → Int × Option PyErr
  | IndexResult.raises e => (-1, some e)
  | IndexResult.value n =>
    if PY_SSIZE_T_MIN ≤ n ∧ n ≤ PY_SSIZE_T_MAX then (n, none)
    else (-1, some { exc := PyExc.OverflowError,
                     msg := "cannot fit '" ++ tp_name.take 200 ++ "' into an index-sized integer" })

/-- CPython `PyBuffer_ToContiguous(buf, src, len, 'C')`: the bytes written to
`buf`. "This function fails if `len != src->len`." -/
def PyBuffer_ToContiguous (src : Exported) (len : Nat) : Except PyErr (List Byte) :=
  if len ≠ src.view.len then
    Except.error { exc := PyExc.ValueError, msg := "PyBuffer_ToContiguous: len != view->len" }
  else
    Except.ok src.mem

/-- CPython `PyBUF_WRITABLE`. -/
def PyBUF_WRITABLE : Nat := 0x0001

/-- CPython `PyBUF_FORMAT`. -/
def PyBUF_FORMAT : Nat := 0x0004

/-- CPython `PyBUF_ND`. -/
def PyBUF_ND : Nat := 0x0008

/-- CPython `PyBUF_STRIDES` (`0x0010 | PyBUF_ND`). -/
def PyBUF_STRIDES : Nat := 0x0018

/-! ## `winrt_array.cpp` -/

/-- `Array_Alloc` (lines 23-36): the instance `tp_alloc` returns, with a null
`array` pointer, or `none` when `tp_alloc` fails. A new object has reference
count 1. -/
def Array_Alloc (env : Env) : Option Array :=
  match env.tp_alloc with
  | none => none
  | some p => some { ob_refcnt := 1, addr := p, array := none }

/-- `Array_tp_new`, lines 110-162: the chain of
`PyUnicode_CompareWithASCIIString` tests on a string descriptor. -/
def formatKind (s : String) : Option ElementKind :=
  if s = "?" then some ElementKind.Bool
  else if s = "b" then some ElementKind.Int8
  else if s = "B" then some ElementKind.UInt8
  else if s = "h" then some ElementKind.Int16
  else if s = "H" then some ElementKind.UInt16
  else if s = "i" then some ElementKind.Int32
  else if s = "I" then some ElementKind.UInt32
  else if s = "q" then some ElementKind.Int64
  else if s = "Q" then some ElementKind.UInt64
  else if s = "f" then some ElementKind.Float32
  else if s = "d" then some ElementKind.Float64
  else if s = "u" then some ElementKind.Char16
  else none

/-- `Array_tp_new`, lines 197-243: the chain of identity tests on a type
descriptor that has no `_assign_array_` hook. -/
def typeKind (t : PyTypeObject) : Option ElementKind :=
  if t.identity = TypeIdentity.PyUnicode_Type then some ElementKind.String
  else if t.tp_name = "UUID" then some ElementKind.Guid
  else if t.identity = TypeIdentity.DateTimeType then some ElementKind.DateTime
  else if t.identity = TypeIdentity.DeltaType then some ElementKind.TimeSpan
  else if t.identity = TypeIdentity.Point then some ElementKind.Point
  else if t.identity = TypeIdentity.Size then some ElementKind.Size
  else if t.identity = TypeIdentity.Rect then some ElementKind.Rect
  else if t.identity = TypeIdentity.Object then some ElementKind.ObjectRef
  else none

/-- `Array_tp_new`, lines 108-249: the instance after the first argument has
been handled (`self->array` installed, or left null by a hook), or the
exception with which the constructor returns `nullptr`. -/
def selectArray (self : Array) : Arg0 → Except PyErr Array
  | Arg0.str s =>
    match formatKind s with
    | some k => Except.ok { self with array := some (ComArray.empty k) }
    | none => Except.error { exc := PyExc.ValueError, msg := "unsupported format string" }
  | Arg0.type t =>
    match t.assign_array with
    | AttrLookup.found call =>
      match call with
      | Except.error e => Except.error e
      | Except.ok installed => Except.ok { self with array := installed }
    | AttrLookup.failed e =>
      if e.exc = PyExc.AttributeError then
        match typeKind t with
        | some k => Except.ok { self with array := some (ComArray.empty k) }
        | none =>
          Except.error { exc := PyExc.TypeError,
                         msg := "cannot use " ++ t.tp_name.take 100 ++ " as type for WinRT array" }
      else Except.error e
  | Arg0.other =>
    Except.error { exc := PyExc.TypeError, msg := "first argument must be str or type" }

/-- `Array_tp_new`, lines 272-291: the second argument is the count `count`
(a `Py_ssize_t`). -/
def sizedConstruct (env : Env) (self : Array) (count : Int) : Outcome Array :=
  if count < 0 then
    Outcome.raised { exc := PyExc.ValueError, msg := "negative count" }
  else
    let size : Nat := count.toNat % 2 ^ 32
    if (size : Int) ≠ count then
      Outcome.raised { exc := PyExc.OverflowError, msg := "count exceeds max size" }
    else
      match self.array with
      | none => Outcome.undefined
      | some a =>
        match a.Alloc env size with
        | Except.error e => Outcome.raised e
        | Except.ok a1 => Outcome.ok { self with array := some a1 }

/-- `Array_tp_new`, lines 308-344: the second argument exported the view
`src`. The guard of line 306 is a temporary, so the view is released before
it is read; the fields and the exporter's memory are taken as they were when
the view was filled. -/
def bufferIngest (env : Env) (self : Array) (src : Exported) : Outcome Array :=
  match self.array with
  | none => Outcome.undefined
  | some a =>
    if src.view.itemsize ≠ ValueSize a.kind then
      Outcome.raised { exc := PyExc.TypeError, msg := "itemsize is incorrect" }
    else if src.view.format = none ∨ src.view.format ≠ some (Format env a.kind) then
      Outcome.raised { exc := PyExc.TypeError, msg := "format is incorrect" }
    else
      let size : Nat := (src.view.len / src.view.itemsize) % 2 ^ 32
      if size ≠ src.view.len / src.view.itemsize then
        Outcome.raised { exc := PyExc.OverflowError, msg := "count exceeds max size" }
      else
        match a.Alloc env size with
        | Except.error e => Outcome.raised e
        | Except.ok a1 =>
          match PyBuffer_ToContiguous src (a1.count * ValueSize a1.kind) with
          | Except.error e => Outcome.raised e
          | Except.ok copied => Outcome.ok { self with array := some { a1 with bytes := copied } }

/-- `Array_tp_new`, lines 366-372: the loop `for (i = ...; i < Size(); i++)`
with `n` iterations left (`n = Size() - i`; `Set` does not change `Size()`).
`items[i]` is read from the item vector of the sequence. -/
def setLoop {V : Type} (conv : Converter V) (items : List V) :
    Nat → Nat → ComArray → Outcome ComArray
  | 0, _, a => Outcome.ok a
  | n + 1, i, a =>
    match items.get? i with
    | none => Outcome.undefined
    | some v =>
      match a.Set conv i v with
      | Except.error e => Outcome.raised e
      | Except.ok a1 => setLoop conv items n (i + 1) a1

/-- `Array_tp_new`, lines 349-374: the second argument is an exact list or
tuple with the item vector `items`. -/
def sequenceIngest {V : Type} (conv : Converter V) (env : Env) (self : Array)
    (items : List V) : Outcome Array :=
  let count : Nat := items.length
  let size : Nat := count % 2 ^ 32
  if size ≠ count then
    Outcome.raised { exc := PyExc.OverflowError, msg := "count exceeds max size" }
  else
    match self.array with
    | none => Outcome.undefined
    | some a =>
      match a.Alloc env size with
      | Except.error e => Outcome.raised e
      | Except.ok a1 =>
        match setLoop conv items a1.count 0 a1 with
        | Outcome.ok a2 => Outcome.ok { self with array := some a2 }
        | Outcome.raised e => Outcome.raised e
        | Outcome.undefined => Outcome.undefined

/-- `Array_tp_new`, lines 295-382: the second argument is not used as a
count; it is a buffer exporter, an exact list or tuple, or rejected. -/
def ingest {V : Type} (conv : Converter V) (env : Env) (self : Array) :
    Arg1 V → Outcome Array
  | Arg1.list items => sequenceIngest conv env self items
  | Arg1.tuple items => sequenceIngest conv env self items
  | Arg1.object tp_name _ bf_getbuffer =>
    match bf_getbuffer with
    | some (Except.error e) => Outcome.raised e
    | some (Except.ok src) => bufferIngest env self src
    | none =>
      Outcome.raised { exc := PyExc.TypeError,
                       msg := "cannot convert '" ++ tp_name.take 200 ++ "' object to Array" }

/-- `Array_tp_new`, lines 257-293: the `PyIndex_Check` branch. An object
whose `__index__` raises `TypeError` is not a count and falls through to the
other paths; any other exception is returned. -/
def construct {V : Type} (conv : Converter V) (env : Env) (self : Array) :
    Arg1 V → Outcome Array
  | Arg1.object tp_name (some idx) bf_getbuffer =>
    match PyNumber_AsSsize_t tp_name idx with
    | (count, some e) =>
      if count = -1 then
        if e.exc = PyExc.TypeError then
          ingest conv env self (Arg1.object tp_name (some idx) bf_getbuffer)
        else Outcome.raised e
      else sizedConstruct env self count
    | (count, none) => sizedConstruct env self count
  | arg1 => ingest conv env self arg1

/-- `Array_tp_new` (lines 86-383), called with one positional argument
(`arg1 = none`) or two. -/
def Array_tp_new {V : Type} (conv : Converter V) (env : Env) (arg0 : Arg0)
    (arg1 : Option (Arg1 V)) : Outcome Array :=
  match Array_Alloc env with
  | none => Outcome.raised { exc := PyExc.MemoryError, msg := "" }
  | some self =>
    match selectArray self arg0 with
    | Except.error e => Outcome.raised e
    | Except.ok self1 =>
      match arg1 with
      | none => Outcome.ok self1
      | some a1 => construct conv env self1 a1

/-- `Array_sq_length` (lines 402-405). -/
def Array_sq_length (self : Array) : Outcome Nat :=
  match self.array with
  | none => Outcome.undefined
  | some a => Outcome.ok a.count

/-- What `Array_bf_getbuffer` leaves behind: its return value, the pending
exception, the wrapper object and the caller's view. -/
structure GetBuffer where
  ret : Int
  err : Option PyErr
  self : Array
  view : Py_buffer

/-- `Array_bf_getbuffer` (lines 412-468), for a wrapper that owns a storage
or not (`undefined` when the null `self->array` is dereferenced). -/
def Array_bf_getbuffer (env : Env) (self : Array) (view : Py_buffer) (flags : Nat) :
    Outcome GetBuffer :=
  let view0 : Py_buffer := { view with obj := none }
  if flags &&& PyBUF_WRITABLE = PyBUF_WRITABLE then
    Outcome.ok { ret := -1,
                 err := some { exc := PyExc.BufferError, msg := "Array is not writable." },
                 self := self, view := view0 }
  else
    match self.array with
    | none => Outcome.undefined
    | some a =>
      let self1 : Array := { self with ob_refcnt := self.ob_refcnt + 1 }
      let itemsize : Nat := ValueSize a.kind
      Outcome.ok {
        ret := 0
        err := none
        self := self1
        view := {
          buf := a.data
          obj := some self.addr
          len := a.count * ValueSize a.kind
          itemsize := itemsize
          readonly := 1
          ndim := 1
          format := if flags &&& PyBUF_FORMAT = PyBUF_FORMAT then some (Format env a.kind) else none
          internal := if flags &&& PyBUF_ND = PyBUF_ND then a.count else 0
          shape := if flags &&& PyBUF_ND = PyBUF_ND then some [a.count] else none
          strides := if flags &&& PyBUF_STRIDES = PyBUF_STRIDES then some [itemsize] else none
          suboffsets := none } }

/-! ## Lifetime of the wrapper object and of its views -/

/-- `Array_tp_dealloc` (lines 385-391): `std::destroy_at(&self->array)`
destroys the owned storage and `tp_free` releases the instance; what is left
of the object is nothing (`none`). -/
def Array_tp_dealloc (_self : Array) : Option Array :=
  none

/-- CPython `Py_DECREF` on the wrapper object: the reference count drops by
one, and `tp_dealloc` runs when it reaches zero. The result is the object
that remains, `none` once it is deallocated. -/
def Py_DECREF (self : Array) : Option Array :=
  if self.ob_refcnt - 1 = 0 then Array_tp_dealloc self
  else some { self with ob_refcnt := self.ob_refcnt - 1 }

/-- CPython `PyBuffer_Release(view)` for a view whose owner, if any, is
`self`: nothing happens when `view->obj` is `NULL`; otherwise `view->obj` is
set to `NULL` and the owner loses one reference. The type has no
`bf_releasebuffer` slot (`Array_type_slots`, lines 475-486), so nothing else
runs. -/
def PyBuffer_Release (self : Array) (view : Py_buffer) : Option Array × Py_buffer :=
  match view.obj with
  | none => (some self, view)
  | some _ => (Py_DECREF self, { view with obj := none })

/-- One wrapper object as the host sees it: the object (`none` once
`Array_tp_dealloc` has run), the views that `Array_bf_getbuffer` filled and
that are not released yet, and the number of references to the object that
are owned by other holders than views. -/
structure Host where
  self : Option Array
  views : List Py_buffer
  owned : Nat

/-- What the host can do with the object: request a view into the caller's
`view` with `flags`, release the outstanding view of index `i`, take a new
reference, or drop a reference it owns. -/
inductive Action where
  | getbuffer (view : Py_buffer) (flags : Nat)
  | release (i : Nat)
  | incref
  | decref

/-- One action of the host. The result is `none` when the action cannot be
performed: the object is gone, the view does not exist, no reference is owned
that could be dropped, or `Array_bf_getbuffer` is undefined. -/
def step (env : Env) (w : Host) : Action → Option Host
  | Action.getbuffer view flags =>
    match w.self with
    | none => none
    | some s =>
      match Array_bf_getbuffer env s view flags with
      | Outcome.ok r =>
        if r.ret = 0 then some { self := some r.self, views := r.view :: w.views, owned := w.owned }
        else some { self := some r.self, views := w.views, owned := w.owned }
      | Outcome.raised _ => none
      | Outcome.undefined => none
  | Action.release i =>
    match w.self, w.views.get? i with
    | some s, some v =>
      some { self := (PyBuffer_Release s v).1, views := w.views.eraseIdx i, owned := w.owned }
    | _, _ => none
  | Action.incref =>
    match w.self with
    | none => none
    | some s =>
      some { self := some { s with ob_refcnt := s.ob_refcnt + 1 }, views := w.views,
             owned := w.owned + 1 }
  | Action.decref =>
    match w.self with
    | none => none
    | some s =>
      if w.owned = 0 then none
      else some { self := Py_DECREF s, views := w.views, owned := w.owned - 1 }

/-- A sequence of actions of the host, from left to right. -/
def run (env : Env) : Host → List Action → Option Host
  | w, [] => some w
  | w, act :: acts =>
    match step env w act with
    | none => none
    | some w1 => run env w1 acts

/-- The reference-count invariant of a host state that started from the
object `self0`. While the object exists its reference count is positive and
is the number of owned references plus the number of outstanding views, its
address and storage are those of `self0`, and every outstanding view names
the object as its owner and points at the storage. Once the object is gone no
view is outstanding and no reference is owned. -/
def Pinned (self0 : Array) (w : Host) : Prop :=
  match w.self with
  | some s =>
    0 < s.ob_refcnt ∧ s.ob_refcnt = w.owned + w.views.length ∧
      s.addr = self0.addr ∧ s.array = self0.array ∧
      ∀ v, v ∈ w.views → v.obj = some s.addr ∧ ∃ a, self0.array = some a ∧ v.buf = a.data
  | none => w.views = [] ∧ w.owned = 0

/-! ## Concrete instances used to evaluate the model -/

/-- The descriptor table of the design document (section 4.1): the twelve
single-character format codes and the kind each one selects. -/
def specFormatTable : List (String × ElementKind) :=
  [("?", ElementKind.Bool), ("b", ElementKind.Int8), ("B", ElementKind.UInt8),
   ("h", ElementKind.Int16), ("H", ElementKind.UInt16), ("i", ElementKind.Int32),
   ("I", ElementKind.UInt32), ("q", ElementKind.Int64), ("Q", ElementKind.UInt64),
   ("f", ElementKind.Float32), ("d", ElementKind.Float64), ("u", ElementKind.Char16)]

/-- A process in which the instance is allocated at address 4096, every
storage block is allocated at address 8192, and the kinds without a format
code use the descriptor "P". -/
def sampleEnv : Env :=
  { tp_alloc := some 4096, malloc := fun _ => some 8192, structFormat := fun _ => "P" }

/-- A converter over natural numbers: a number below 256 is stored in the
first byte of its slot, the other bytes of the slot being zero; larger numbers
are rejected. -/
def sampleConverter : Converter Nat where
  encode := fun k n =>
    if h : n < 256 then Except.ok ((⟨n, h⟩ : Byte) :: List.replicate (ValueSize k - 1) 0)
    else Except.error { exc := PyExc.OverflowError, msg := "value out of range" }
  decode := fun _ bs =>
    match bs with
    | [] => Except.error { exc := PyExc.ValueError, msg := "empty slot" }
    | b :: _ => Except.ok b.val
  encode_length := by
    intro k v bs h
    by_cases hv : v < 256
    · simp only [hv, dite_true, Except.ok.injEq] at h
      subst h
      have hk : 0 < ValueSize k := by cases k <;> decide
      simp only [List.length_cons, List.length_replicate]
      omega
    · simp [hv] at h

/-- A type object without the `_assign_array_` attribute: the lookup fails
with `AttributeError`. -/
def plainType (tp_name : String) (identity : TypeIdentity) : PyTypeObject :=
  { tp_name := tp_name, identity := identity,
    assign_array := AttrLookup.failed { exc := PyExc.AttributeError, msg := "" } }

/-- An exporter whose view has the given item size and format string and
whose memory is `mem` (so that `len` is the length of `mem`). -/
def sampleExport (itemsize : Nat) (format : Option String) (mem : List Byte) : Exported :=
  { view := { buf := 12288, obj := some 16384, len := mem.length, itemsize := itemsize,
              readonly := 1, ndim := 1, format := format,
              shape := some [mem.length / itemsize], strides := some [itemsize],
              suboffsets := none, internal := 0 }
    mem := mem
    mem_length := rfl }

/-- A type object whose `_assign_array_` hook returns normally and leaves
`self->array` as `installed`. -/
def hookType (tp_name : String) (identity : TypeIdentity) (installed : Option ComArray) :
    PyTypeObject :=
  { tp_name := tp_name, identity := identity,
    assign_array := AttrLookup.found (Except.ok installed) }

/-- The "B" array built from `[1, 2, 3]` in the sample process, as returned
by the constructor. -/
def sampleArray : Array :=
  { ob_refcnt := 1, addr := 4096,
    array := some { kind := ElementKind.UInt8, count := 3, data := 8192, bytes := [1, 2, 3] } }

/-! ## Theorems -/

/-! ### String descriptors -/

/-- C1. A string descriptor with no second argument: when the instance can be
allocated, each of the twelve codes of the table constructs an array of the
kind the table assigns, with count 0 and with the code itself as format
descriptor; any string outside the table fails with `ValueError`
("unsupported format string") and returns no object. -/
theorem Array_tp_new_format_code {V : Type} (conv : Converter V) (env : Env) (p : Nat)
    (s : String) (hp : env.tp_alloc = some p) :
    (∀ k, (s, k) ∈ specFormatTable →
      ∃ a : ComArray,
        Array_tp_new conv env (Arg0.str s) none
            = Outcome.ok { ob_refcnt := 1, addr := p, array := some a }
          ∧ a.kind = k ∧ a.count = 0 ∧ a.bytes = [] ∧ Format env a.kind = s
          ∧ Array_sq_length { ob_refcnt := 1, addr := p, array := some a } = Outcome.ok 0) ∧
    ((∀ k, (s, k) ∉ specFormatTable) →
      Array_tp_new conv env (Arg0.str s) none
        = Outcome.raised { exc := PyExc.ValueError, msg := "unsupported format string" }) := by
  constructor
  · intro k hk
    simp only [specFormatTable, List.mem_cons, Prod.mk.injEq, List.mem_singleton,
      List.not_mem_nil, or_false] at hk
    refine ⟨ComArray.empty k, ?_, rfl, rfl, rfl, ?_, rfl⟩
    · rcases hk with h | h | h | h | h | h | h | h | h | h | h | h <;>
        obtain ⟨rfl, rfl⟩ := h <;>
        simp [Array_tp_new, Array_Alloc, hp, selectArray, formatKind]
    · rcases hk with h | h | h | h | h | h | h | h | h | h | h | h <;>
        obtain ⟨rfl, rfl⟩ := h <;> rfl
  · intro hn
    have hne : ∀ c k, (c, k) ∈ specFormatTable → s ≠ c := by
      intro c k hc hs
      exact hn k (hs ▸ hc)
    have h1 := hne "?" ElementKind.Bool (by simp [specFormatTable])
    have h2 := hne "b" ElementKind.Int8 (by simp [specFormatTable])
    have h3 := hne "B" ElementKind.UInt8 (by simp [specFormatTable])
    have h4 := hne "h" ElementKind.Int16 (by simp [specFormatTable])
    have h5 := hne "H" ElementKind.UInt16 (by simp [specFormatTable])
    have h6 := hne "i" ElementKind.Int32 (by simp [specFormatTable])
    have h7 := hne "I" ElementKind.UInt32 (by simp [specFormatTable])
    have h8 := hne "q" ElementKind.Int64 (by simp [specFormatTable])
    have h9 := hne "Q" ElementKind.UInt64 (by simp [specFormatTable])
    have h10 := hne "f" ElementKind.Float32 (by simp [specFormatTable])
    have h11 := hne "d" ElementKind.Float64 (by simp [specFormatTable])
    have h12 := hne "u" ElementKind.Char16 (by simp [specFormatTable])
    simp [Array_tp_new, Array_Alloc, hp, selectArray, formatKind, h1, h2, h3, h4, h5, h6,
      h7, h8, h9, h10, h11, h12]

/-- C1, evaluated at the code "i" in the sample process. -/
theorem Array_tp_new_format_code_witness :
    sampleEnv.tp_alloc = some 4096 ∧
    ∃ a : ComArray,
      Array_tp_new sampleConverter sampleEnv (Arg0.str "i") none
          = Outcome.ok { ob_refcnt := 1, addr := 4096, array := some a }
        ∧ a.kind = ElementKind.Int32 ∧ a.count = 0 ∧ a.bytes = [] ∧ Format sampleEnv a.kind = "i"
        ∧ Array_sq_length { ob_refcnt := 1, addr := 4096, array := some a } = Outcome.ok 0 :=
  ⟨rfl, (Array_tp_new_format_code sampleConverter sampleEnv 4096 "i" rfl).1 ElementKind.Int32
    (by simp [specFormatTable])⟩

/-- Every element kind is resolved by some descriptor: the twelve format
codes and eight type objects without a construction hook. -/
theorem selectArray_every_kind (self : Array) (k : ElementKind) :
    ∃ arg0, selectArray self arg0 = Except.ok { self with array := some (ComArray.empty k) } := by
  cases k
  · exact ⟨Arg0.str "?", by simp [selectArray, formatKind]⟩
  · exact ⟨Arg0.str "b", by simp [selectArray, formatKind]⟩
  · exact ⟨Arg0.str "B", by simp [selectArray, formatKind]⟩
  · exact ⟨Arg0.str "h", by simp [selectArray, formatKind]⟩
  · exact ⟨Arg0.str "H", by simp [selectArray, formatKind]⟩
  · exact ⟨Arg0.str "i", by simp [selectArray, formatKind]⟩
  · exact ⟨Arg0.str "I", by simp [selectArray, formatKind]⟩
  · exact ⟨Arg0.str "q", by simp [selectArray, formatKind]⟩
  · exact ⟨Arg0.str "Q", by simp [selectArray, formatKind]⟩
  · exact ⟨Arg0.str "f", by simp [selectArray, formatKind]⟩
  · exact ⟨Arg0.str "d", by simp [selectArray, formatKind]⟩
  · exact ⟨Arg0.str "u", by simp [selectArray, formatKind]⟩
  · exact ⟨Arg0.type (plainType "str" TypeIdentity.PyUnicode_Type), by simp [selectArray, typeKind, plainType]⟩
  · exact ⟨Arg0.type (plainType "UUID" TypeIdentity.unrelated), by simp [selectArray, typeKind, plainType]⟩
  · exact ⟨Arg0.type (plainType "datetime.datetime" TypeIdentity.DateTimeType), by simp [selectArray, typeKind, plainType]⟩
  · exact ⟨Arg0.type (plainType "datetime.timedelta" TypeIdentity.DeltaType), by simp [selectArray, typeKind, plainType]⟩
  · exact ⟨Arg0.type (plainType "Point" TypeIdentity.Point), by simp [selectArray, typeKind, plainType]⟩
  · exact ⟨Arg0.type (plainType "Size" TypeIdentity.Size), by simp [selectArray, typeKind, plainType]⟩
  · exact ⟨Arg0.type (plainType "Rect" TypeIdentity.Rect), by simp [selectArray, typeKind, plainType]⟩
  · exact ⟨Arg0.type (plainType "Object" TypeIdentity.Object), by simp [selectArray, typeKind, plainType]⟩

/-! ### A count as second argument -/

/-- Once the instance is allocated and the first argument has installed the
storage `a`, the constructor continues with the second argument. -/
theorem Array_tp_new_some {V : Type} (conv : Converter V) (env : Env) (p : Nat) (arg0 : Arg0)
    (a : Option ComArray) (arg1 : Arg1 V) (hp : env.tp_alloc = some p)
    (h0 : selectArray { ob_refcnt := 1, addr := p, array := none } arg0
        = Except.ok { ob_refcnt := 1, addr := p, array := a }) :
    Array_tp_new conv env arg0 (some arg1)
      = construct conv env { ob_refcnt := 1, addr := p, array := a } arg1 := by
  simp [Array_tp_new, Array_Alloc, hp, h0]

/-- Allocating fewer than `2^32` elements in a new storage never overflows
`size_t`; the result is decided by the allocator. -/
theorem Alloc_empty (env : Env) (k : ElementKind) (n : Nat) (hn : n < 2 ^ 32) :
    (ComArray.empty k).Alloc env n
      = match env.malloc (n * ValueSize k) with
        | none => Except.error { exc := PyExc.MemoryError, msg := "" }
        | some q => Except.ok { kind := k, count := n, data := q,
                                bytes := List.replicate (n * ValueSize k) 0 } := by
  have hw : ValueSize k ≤ 16 := by cases k <;> decide
  have hle : n * ValueSize k ≤ n * 16 := Nat.mul_le_mul_left n hw
  have : ¬ SIZE_MAX < n * ValueSize k := by
    simp only [SIZE_MAX]
    omega
  simp [ComArray.Alloc, ComArray.empty, this]

/-- An integer that fits `Py_ssize_t` is converted to itself. -/
theorem PyNumber_AsSsize_t_fits (tp_name : String) (n : Int)
    (h : -(2 ^ 63) ≤ n ∧ n ≤ 2 ^ 63 - 1) :
    PyNumber_AsSsize_t tp_name (IndexResult.value n) = (n, none) := by
  simp only [PyNumber_AsSsize_t, PY_SSIZE_T_MIN, PY_SSIZE_T_MAX]
  rw [if_pos h]

/-- An integer that does not fit `Py_ssize_t` raises `OverflowError`. -/
theorem PyNumber_AsSsize_t_overflow (tp_name : String) (n : Int)
    (h : ¬ (-(2 ^ 63) ≤ n ∧ n ≤ 2 ^ 63 - 1)) :
    PyNumber_AsSsize_t tp_name (IndexResult.value n)
      = (-1, some { exc := PyExc.OverflowError,
                    msg := "cannot fit '" ++ tp_name.take 200
                             ++ "' into an index-sized integer" }) := by
  simp only [PyNumber_AsSsize_t, PY_SSIZE_T_MIN, PY_SSIZE_T_MAX]
  rw [if_neg h]

/-- An integer second argument that fits `Py_ssize_t` is used as the count. -/
theorem construct_value_fits {V : Type} (conv : Converter V) (env : Env) (self : Array)
    (tp_name : String) (n : Int) (bf : Option (Except PyErr Exported))
    (h : -(2 ^ 63) ≤ n ∧ n ≤ 2 ^ 63 - 1) :
    construct conv env self (Arg1.object tp_name (some (IndexResult.value n)) bf)
      = sizedConstruct env self n := by
  simp only [construct, PyNumber_AsSsize_t_fits tp_name n h]

/-- An integer second argument that does not fit `Py_ssize_t` makes the
constructor return with the `OverflowError` of the conversion. -/
theorem construct_value_overflow {V : Type} (conv : Converter V) (env : Env) (self : Array)
    (tp_name : String) (n : Int) (bf : Option (Except PyErr Exported))
    (h : ¬ (-(2 ^ 63) ≤ n ∧ n ≤ 2 ^ 63 - 1)) :
    construct conv env self (Arg1.object tp_name (some (IndexResult.value n)) bf)
      = Outcome.raised { exc := PyExc.OverflowError,
                         msg := "cannot fit '" ++ tp_name.take 200
                                  ++ "' into an index-sized integer" } := by
  simp [construct, PyNumber_AsSsize_t_overflow tp_name n h]

/-- A negative `Py_ssize_t` count is rejected with `ValueError`. -/
theorem sizedConstruct_negative (env : Env) (self : Array) (n : Int) (h : n < 0) :
    sizedConstruct env self n
      = Outcome.raised { exc := PyExc.ValueError, msg := "negative count" } := by
  simp only [sizedConstruct]
  rw [if_pos h]

/-- A count of `2^32` or more does not survive the conversion to `uint32_t`. -/
theorem sizedConstruct_large (env : Env) (self : Array) (n : Int) (h : 2 ^ 32 ≤ n) :
    sizedConstruct env self n
      = Outcome.raised { exc := PyExc.OverflowError, msg := "count exceeds max size" } := by
  have h1 : ¬ n < 0 := by omega
  have h2 : ((n.toNat % 2 ^ 32 : Nat) : Int) ≠ n := by omega
  simp only [sizedConstruct]
  rw [if_neg h1, if_pos h2]

/-- A count in the `uint32_t` range is passed to `Alloc` unchanged. -/
theorem sizedConstruct_fits (env : Env) (self : Array) (a : ComArray) (n : Int)
    (h1 : 0 ≤ n) (h2 : n < 2 ^ 32) (ha : self.array = some a) :
    sizedConstruct env self n
      = match a.Alloc env n.toNat with
        | Except.error e => Outcome.raised e
        | Except.ok a1 => Outcome.ok { self with array := some a1 } := by
  have h3 : ¬ n < 0 := by omega
  have h4 : n.toNat % 2 ^ 32 = n.toNat := by omega
  have h5 : ¬ ((n.toNat % 2 ^ 32 : Nat) : Int) ≠ n := by omega
  simp only [sizedConstruct]
  rw [if_neg h3, if_neg h5, ha, h4]

/-- Overwriting a slot that lies inside the buffer keeps the buffer's length. -/
theorem length_writeSlot (w : Nat) (bytes new : List Byte) (i : Nat)
    (hb : i * w + w ≤ bytes.length) (hn : new.length = w) :
    (writeSlot w bytes i new).length = bytes.length := by
  simp only [writeSlot, List.length_append, List.length_take, List.length_drop, hn]
  omega

/-- A slot that was overwritten holds the bytes written to it. -/
theorem slot_writeSlot_self (w : Nat) (bytes new : List Byte) (i : Nat)
    (hb : i * w + w ≤ bytes.length) (hn : new.length = w) :
    slot w (writeSlot w bytes i new) i = new := by
  have h1 : (bytes.take (i * w)).length = i * w := by
    rw [List.length_take]; omega
  unfold slot writeSlot
  rw [List.append_assoc, List.drop_append_of_le_length (by omega)]
  rw [List.drop_of_length_le (by omega), List.nil_append]
  rw [List.take_append_of_le_length (by omega), List.take_of_length_le (by omega)]

/-- Overwriting a slot leaves every other slot as it was. -/
theorem slot_writeSlot_of_ne (w : Nat) (bytes new : List Byte) (i j : Nat)
    (hb : i * w + w ≤ bytes.length) (hn : new.length = w) (hij : j ≠ i) :
    slot w (writeSlot w bytes i new) j = slot w bytes j := by
  have h1 : (bytes.take (i * w)).length = i * w := by
    rw [List.length_take]; omega
  unfold slot writeSlot
  rcases Nat.lt_or_gt_of_ne hij with h | h
  · have h2 : j * w + w ≤ i * w := by
      have := Nat.mul_le_mul_right w (Nat.succ_le_of_lt h)
      rw [Nat.succ_mul] at this
      exact this
    rw [List.append_assoc, List.drop_append_of_le_length (by omega)]
    rw [List.take_append_of_le_length (by rw [List.length_drop]; omega)]
    rw [List.drop_take, List.take_take]
    congr 1
    omega
  · have h2 : i * w + w ≤ j * w := by
      have := Nat.mul_le_mul_right w (Nat.succ_le_of_lt h)
      rw [Nat.succ_mul] at this
      exact this
    have h3 : (bytes.take (i * w) ++ new).length = i * w + w := by
      rw [List.length_append, h1, hn]
    have h4 : j * w = (bytes.take (i * w) ++ new).length + (j * w - (i * w + w)) := by
      rw [h3]; omega
    rw [h4, List.drop_append, List.drop_drop, h3]

/-- C2 (amended). An integer count as second argument, for a resolved kind
and an allocated instance: a count below `-2^63` fails with `OverflowError`
(raised by the index conversion); a negative count from `-2^63` on fails with
`ValueError`; a count of `2^32` or more fails with `OverflowError`; any other
count allocates zero-filled storage for exactly that many elements, and the
constructor returns the object when the allocation succeeds and fails with
the allocator's error when it does not. -/
theorem Array_tp_new_count {V : Type} (conv : Converter V) (env : Env) (p : Nat) (arg0 : Arg0)
    (k : ElementKind) (tp_name : String) (n : Int) (bf : Option (Except PyErr Exported))
    (hp : env.tp_alloc = some p)
    (h0 : selectArray { ob_refcnt := 1, addr := p, array := none } arg0
        = Except.ok { ob_refcnt := 1, addr := p, array := some (ComArray.empty k) }) :
    (n < -(2 ^ 63) →
      Array_tp_new conv env arg0 (some (Arg1.object tp_name (some (IndexResult.value n)) bf))
        = Outcome.raised { exc := PyExc.OverflowError,
                           msg := "cannot fit '" ++ tp_name.take 200
                                    ++ "' into an index-sized integer" }) ∧
    (-(2 ^ 63) ≤ n → n < 0 →
      Array_tp_new conv env arg0 (some (Arg1.object tp_name (some (IndexResult.value n)) bf))
        = Outcome.raised { exc := PyExc.ValueError, msg := "negative count" }) ∧
    (2 ^ 32 ≤ n →
      ∃ msg, Array_tp_new conv env arg0
          (some (Arg1.object tp_name (some (IndexResult.value n)) bf))
        = Outcome.raised { exc := PyExc.OverflowError, msg := msg }) ∧
    (0 ≤ n → n < 2 ^ 32 →
      (∀ q, env.malloc (n.toNat * ValueSize k) = some q →
        Array_tp_new conv env arg0 (some (Arg1.object tp_name (some (IndexResult.value n)) bf))
          = Outcome.ok { ob_refcnt := 1, addr := p,
                         array := some { kind := k, count := n.toNat, data := q,
                                         bytes := List.replicate (n.toNat * ValueSize k) 0 } }) ∧
      (env.malloc (n.toNat * ValueSize k) = none →
        Array_tp_new conv env arg0 (some (Arg1.object tp_name (some (IndexResult.value n)) bf))
          = Outcome.raised { exc := PyExc.MemoryError, msg := "" })) := by
  rw [Array_tp_new_some conv env p arg0 _ _ hp h0]
  refine ⟨?_, ?_, ?_, ?_⟩
  · intro h
    exact construct_value_overflow conv env _ tp_name n bf (by omega)
  · intro h1 h2
    rw [construct_value_fits conv env _ tp_name n bf (by omega)]
    exact sizedConstruct_negative env _ n h2
  · intro h
    by_cases hfit : -(2 ^ 63) ≤ n ∧ n ≤ 2 ^ 63 - 1
    · rw [construct_value_fits conv env _ tp_name n bf hfit]
      exact ⟨_, sizedConstruct_large env _ n h⟩
    · exact ⟨_, construct_value_overflow conv env _ tp_name n bf hfit⟩
  · intro h1 h2
    rw [construct_value_fits conv env _ tp_name n bf (by omega),
      sizedConstruct_fits env _ (ComArray.empty k) n h1 h2 rfl,
      Alloc_empty env k n.toNat (by omega)]
    constructor
    · intro q hq
      rw [hq]
    · intro hq
      rw [hq]

set_option maxRecDepth 100000 in
/-- The type name "int" is not shortened by the `%.200s` conversion. -/
theorem take_int : "int".take 200 = "int" := by decide

/-- C2 as stated fails: the negative count `-2^63 - 1` is rejected with
`OverflowError`, not with `ValueError`. -/
theorem Array_tp_new_count_counterexample :
    (-(2 ^ 63) - 1 : Int) < 0 ∧
    Array_tp_new sampleConverter sampleEnv (Arg0.str "i")
        (some (Arg1.object "int" (some (IndexResult.value (-(2 ^ 63) - 1))) none))
      = Outcome.raised { exc := PyExc.OverflowError,
                         msg := "cannot fit 'int' into an index-sized integer" } ∧
    ¬ ∃ msg, Array_tp_new sampleConverter sampleEnv (Arg0.str "i")
        (some (Arg1.object "int" (some (IndexResult.value (-(2 ^ 63) - 1))) none))
      = Outcome.raised { exc := PyExc.ValueError, msg := msg } := by
  have h : Array_tp_new sampleConverter sampleEnv (Arg0.str "i")
        (some (Arg1.object "int" (some (IndexResult.value (-(2 ^ 63) - 1))) none))
      = Outcome.raised { exc := PyExc.OverflowError,
                         msg := "cannot fit 'int' into an index-sized integer" } := by
    rw [Array_tp_new_some sampleConverter sampleEnv 4096 (Arg0.str "i")
      (some (ComArray.empty ElementKind.Int32)) _ rfl (by simp [selectArray, formatKind])]
    rw [construct_value_overflow sampleConverter sampleEnv _ "int" _ none (by omega), take_int]
    rfl
  refine ⟨by omega, h, ?_⟩
  rintro ⟨msg, hm⟩
  rw [h] at hm
  simp at hm

/-- C2 (amended), evaluated at the code "i" and the count 5 in the sample
process. -/
theorem Array_tp_new_count_witness :
    sampleEnv.tp_alloc = some 4096 ∧
    selectArray { ob_refcnt := 1, addr := 4096, array := none } (Arg0.str "i")
      = Except.ok { ob_refcnt := 1, addr := 4096,
                    array := some (ComArray.empty ElementKind.Int32) } ∧
    Array_tp_new sampleConverter sampleEnv (Arg0.str "i")
        (some (Arg1.object "int" (some (IndexResult.value 5)) none))
      = Outcome.ok { ob_refcnt := 1, addr := 4096,
                     array := some { kind := ElementKind.Int32, count := 5, data := 8192,
                                     bytes := List.replicate 20 0 } } :=
  ⟨rfl, by simp [selectArray, formatKind],
    ((Array_tp_new_count sampleConverter sampleEnv 4096 (Arg0.str "i") ElementKind.Int32 "int" 5
      none rfl (by simp [selectArray, formatKind])).2.2.2 (by decide) (by decide)).1 8192 rfl⟩


/-! ### A list or tuple as second argument -/

/-- A successful `Set` had an index in range and an item the converter
accepts, and wrote the encoding into the slot of that index. -/
theorem Set_eq_ok {V : Type} (conv : Converter V) (a a1 : ComArray) (i : Nat) (v : V)
    (h : a.Set conv i v = Except.ok a1) :
    i < a.count ∧ ∃ bs, conv.encode a.kind v = Except.ok bs ∧
      a1 = { a with bytes := writeSlot (ValueSize a.kind) a.bytes i bs } := by
  unfold ComArray.Set at h
  by_cases hi : i < a.count
  · rw [if_pos hi] at h
    cases he : conv.encode a.kind v with
    | error e => rw [he] at h; cases h
    | ok bs =>
      rw [he] at h
      injection h with h
      exact ⟨hi, bs, rfl, h.symm⟩
  · rw [if_neg hi] at h
    cases h

/-- `Set` succeeds for an index in range and an item the converter accepts. -/
theorem Set_ok_of {V : Type} (conv : Converter V) (a : ComArray) (i : Nat) (v : V)
    (bs : List Byte) (hi : i < a.count) (he : conv.encode a.kind v = Except.ok bs) :
    a.Set conv i v
      = Except.ok { a with bytes := writeSlot (ValueSize a.kind) a.bytes i bs } := by
  unfold ComArray.Set
  rw [if_pos hi, he]

/-- The invariant of the `Set` loop. When the `n` iterations from index `i` on
all succeed on a storage of `count * width` bytes, the storage keeps its
kind, count, data pointer and length, the slots below `i` are untouched, and
each slot from `i` to `i + n - 1` holds the encoding of the item of the same
index. -/
theorem setLoop_ok_inv {V : Type} (conv : Converter V) (items : List V) :
    ∀ (n i : Nat) (a a2 : ComArray), setLoop conv items n i a = Outcome.ok a2 →
      a.bytes.length = a.count * ValueSize a.kind →
      a2.kind = a.kind ∧ a2.count = a.count ∧ a2.data = a.data ∧
      a2.bytes.length = a.bytes.length ∧
      (∀ j, j < i → slot (ValueSize a.kind) a2.bytes j = slot (ValueSize a.kind) a.bytes j) ∧
      (∀ j, i ≤ j → j < i + n → j < a.count ∧
        ∃ v, items.get? j = some v ∧
          conv.encode a.kind v = Except.ok (slot (ValueSize a.kind) a2.bytes j)) := by
  intro n
  induction n with
  | zero =>
    intro i a a2 h _
    simp only [setLoop] at h
    injection h with h
    subst h
    exact ⟨rfl, rfl, rfl, rfl, fun _ _ => rfl, fun j h1 h2 => absurd h2 (by omega)⟩
  | succ n ih =>
    intro i a a2 h hlen
    simp only [setLoop] at h
    cases hv : items.get? i with
    | none => rw [hv] at h; cases h
    | some v =>
      rw [hv] at h
      dsimp only at h
      cases hs : a.Set conv i v with
      | error e => rw [hs] at h; cases h
      | ok a1 =>
        rw [hs] at h
        obtain ⟨hi, bs, he, ha1⟩ := Set_eq_ok conv a a1 i v hs
        have hbs : bs.length = ValueSize a.kind := conv.encode_length _ _ _ he
        have hfit : i * ValueSize a.kind + ValueSize a.kind ≤ a.bytes.length := by
          have := Nat.mul_le_mul_right (ValueSize a.kind) (Nat.succ_le_of_lt hi)
          rw [Nat.succ_mul] at this
          omega
        have hk1 : a1.kind = a.kind := by rw [ha1]
        have hc1 : a1.count = a.count := by rw [ha1]
        have hd1 : a1.data = a.data := by rw [ha1]
        have hb1 : a1.bytes = writeSlot (ValueSize a.kind) a.bytes i bs := by rw [ha1]
        have hl1 : a1.bytes.length = a.bytes.length := by
          rw [hb1]; exact length_writeSlot _ _ _ _ hfit hbs
        have hlen1 : a1.bytes.length = a1.count * ValueSize a1.kind := by
          rw [hl1, hc1, hk1]; exact hlen
        obtain ⟨k2, c2, d2, l2, lo2, hi2⟩ := ih (i + 1) a1 a2 h hlen1
        rw [hk1] at lo2 hi2
        refine ⟨k2.trans hk1, c2.trans hc1, d2.trans hd1, l2.trans hl1, ?_, ?_⟩
        · intro j hj
          rw [lo2 j (by omega), hb1]
          exact slot_writeSlot_of_ne _ _ _ _ _ hfit hbs (by omega)
        · intro j hj1 hj2
          by_cases hji : j = i
          · subst hji
            refine ⟨hi, v, hv, ?_⟩
            rw [lo2 j (by omega), hb1, slot_writeSlot_self _ _ _ _ hfit hbs]
            exact he
          · have := hi2 j (by omega) (by omega)
            rw [hc1] at this
            exact this

/-- The `Set` loop succeeds when its indices are in range and the converter
accepts every item it visits. -/
theorem setLoop_ok_of {V : Type} (conv : Converter V) (items : List V) :
    ∀ (n i : Nat) (a : ComArray), i + n ≤ a.count →
      (∀ j, i ≤ j → j < i + n →
        ∃ v bs, items.get? j = some v ∧ conv.encode a.kind v = Except.ok bs) →
      ∃ a2, setLoop conv items n i a = Outcome.ok a2 := by
  intro n
  induction n with
  | zero =>
    intro i a _ _
    exact ⟨a, rfl⟩
  | succ n ih =>
    intro i a hc hall
    obtain ⟨v, bs, hv, he⟩ := hall i (by omega) (by omega)
    simp only [setLoop]
    rw [hv]
    dsimp only
    rw [Set_ok_of conv a i v bs (by omega) he]
    apply ih
    · show i + 1 + n ≤ a.count
      omega
    · intro j h1 h2
      exact hall j (by omega) (by omega)

/-- The `Set` loop never reads past the item vector when it runs over at most
as many indices as there are items. -/
theorem setLoop_defined {V : Type} (conv : Converter V) (items : List V) :
    ∀ (n i : Nat) (a : ComArray), i + n ≤ items.length →
      setLoop conv items n i a ≠ Outcome.undefined := by
  intro n
  induction n with
  | zero =>
    intro i a _ h
    simp only [setLoop] at h
    cases h
  | succ n ih =>
    intro i a hl
    have hi : i < items.length := by omega
    simp only [setLoop]
    rw [List.get?_eq_get hi]
    dsimp only
    cases hs : a.Set conv i (items.get ⟨i, hi⟩) with
    | error e => intro h; cases h
    | ok a1 => exact ih (i + 1) a1 (by omega)

/-- A successful `Alloc` keeps the kind, sets the count, takes its block from
the allocator and zero-fills it. -/
theorem Alloc_eq_ok (env : Env) (a a0 : ComArray) (n : Nat)
    (h : a.Alloc env n = Except.ok a0) :
    a0.kind = a.kind ∧ a0.count = n ∧ env.malloc (n * ValueSize a.kind) = some a0.data ∧
      a0.bytes = List.replicate (n * ValueSize a.kind) 0 := by
  unfold ComArray.Alloc at h
  by_cases hs : SIZE_MAX < n * ValueSize a.kind
  · rw [if_pos hs] at h
    cases h
  · rw [if_neg hs] at h
    cases hm : env.malloc (n * ValueSize a.kind) with
    | none => rw [hm] at h; cases h
    | some q =>
      rw [hm] at h
      injection h with h
      subst h
      exact ⟨rfl, rfl, rfl, rfl⟩

/-- A sequence of `2^32` items or more is rejected with `OverflowError`. -/
theorem sequenceIngest_large {V : Type} (conv : Converter V) (env : Env) (self : Array)
    (items : List V) (h : 2 ^ 32 ≤ items.length) :
    sequenceIngest conv env self items
      = Outcome.raised { exc := PyExc.OverflowError, msg := "count exceeds max size" } := by
  have h1 : items.length % 2 ^ 32 ≠ items.length := by omega
  simp only [sequenceIngest]
  rw [if_pos h1]

/-- For a sequence of fewer than `2^32` items the constructor allocates and
then runs the `Set` loop. -/
theorem sequenceIngest_fits {V : Type} (conv : Converter V) (env : Env) (self : Array)
    (a : ComArray) (items : List V) (h : items.length < 2 ^ 32) (ha : self.array = some a) :
    sequenceIngest conv env self items
      = match a.Alloc env items.length with
        | Except.error e => Outcome.raised e
        | Except.ok a1 =>
          match setLoop conv items a1.count 0 a1 with
          | Outcome.ok a2 => Outcome.ok { self with array := some a2 }
          | Outcome.raised e => Outcome.raised e
          | Outcome.undefined => Outcome.undefined := by
  have h1 : ¬ items.length % 2 ^ 32 ≠ items.length := by omega
  have h2 : items.length % 2 ^ 32 = items.length := by omega
  simp only [sequenceIngest]
  rw [if_neg h1, ha, h2]

/-- The sequence path returns an object exactly when the length fits, the
allocation succeeds and the `Set` loop succeeds; the object then owns the
storage the loop produced. -/
theorem sequenceIngest_ok_iff {V : Type} (conv : Converter V) (env : Env) (self self2 : Array)
    (a : ComArray) (items : List V) (ha : self.array = some a) :
    sequenceIngest conv env self items = Outcome.ok self2 ↔
      items.length < 2 ^ 32 ∧ ∃ a0 a2, a.Alloc env items.length = Except.ok a0 ∧
        setLoop conv items items.length 0 a0 = Outcome.ok a2 ∧
        self2 = { self with array := some a2 } := by
  by_cases hl : items.length < 2 ^ 32
  · rw [sequenceIngest_fits conv env self a items hl ha]
    cases hA : a.Alloc env items.length with
    | error e => simp
    | ok a0 =>
      have hc : a0.count = items.length := (Alloc_eq_ok env a a0 _ hA).2.1
      dsimp only
      rw [hc]
      cases hS : setLoop conv items items.length 0 a0 with
      | ok a2 =>
        dsimp only
        constructor
        · intro h
          injection h with h
          exact ⟨hl, a0, a2, rfl, hS, h.symm⟩
        · rintro ⟨_, b0, b2, h1, h2, h3⟩
          injection h1 with h1
          subst h1
          rw [hS] at h2
          injection h2 with h2
          subst h2
          rw [h3]
      | raised e =>
        dsimp only
        constructor
        · intro h; cases h
        · rintro ⟨_, b0, b2, h1, h2, _⟩
          injection h1 with h1
          subst h1
          rw [hS] at h2
          cases h2
      | undefined =>
        dsimp only
        constructor
        · intro h; cases h
        · rintro ⟨_, b0, b2, h1, h2, _⟩
          injection h1 with h1
          subst h1
          rw [hS] at h2
          cases h2
  · rw [sequenceIngest_large conv env self items (by omega)]
    constructor
    · intro h; cases h
    · rintro ⟨h, _⟩
      exact absurd h hl

/-- On an instance that owns a storage the sequence path is always defined. -/
theorem sequenceIngest_defined {V : Type} (conv : Converter V) (env : Env) (self : Array)
    (a : ComArray) (items : List V) (ha : self.array = some a) :
    sequenceIngest conv env self items ≠ Outcome.undefined := by
  by_cases hl : items.length < 2 ^ 32
  · rw [sequenceIngest_fits conv env self a items hl ha]
    cases hA : a.Alloc env items.length with
    | error e => intro h; cases h
    | ok a0 =>
      have hc : a0.count = items.length := (Alloc_eq_ok env a a0 _ hA).2.1
      dsimp only
      rw [hc]
      have hd := setLoop_defined conv items items.length 0 a0 (by omega)
      cases hS : setLoop conv items items.length 0 a0 with
      | ok a2 => intro h; cases h
      | raised e => intro h; cases h
      | undefined => exact absurd hS hd
  · rw [sequenceIngest_large conv env self items (by omega)]
    intro h
    cases h

/-- An exact list or tuple goes to the sequence path. -/
theorem construct_sequence {V : Type} (conv : Converter V) (env : Env) (self : Array)
    (items : List V) (arg1 : Arg1 V)
    (h1 : arg1 = Arg1.list items ∨ arg1 = Arg1.tuple items) :
    construct conv env self arg1 = sequenceIngest conv env self items := by
  rcases h1 with h | h <;> subst h <;> rfl

/-- C3. An exact list or tuple as second argument, for a resolved kind and an
allocated instance. The constructor returns an object exactly when the length
fits 32 bits, the storage for that many elements is allocated, and `Set`
accepts the item at every index. An object that is returned has the resolved
kind and as many elements as the sequence. The constructor never does
anything else than return an object or raise, and it raises whenever the
converter rejects one of the items. -/
theorem Array_tp_new_sequence {V : Type} (conv : Converter V) (env : Env) (p : Nat)
    (arg0 : Arg0) (k : ElementKind) (items : List V) (arg1 : Arg1 V)
    (hp : env.tp_alloc = some p)
    (h0 : selectArray { ob_refcnt := 1, addr := p, array := none } arg0
        = Except.ok { ob_refcnt := 1, addr := p, array := some (ComArray.empty k) })
    (h1 : arg1 = Arg1.list items ∨ arg1 = Arg1.tuple items) :
    ((∃ self, Array_tp_new conv env arg0 (some arg1) = Outcome.ok self) ↔
      items.length < 2 ^ 32 ∧
        ∃ a0, (ComArray.empty k).Alloc env items.length = Except.ok a0 ∧
          ∀ i (hi : i < items.length),
            ∃ a1, a0.Set conv i (items.get ⟨i, hi⟩) = Except.ok a1) ∧
    (∀ self, Array_tp_new conv env arg0 (some arg1) = Outcome.ok self →
      ∃ a, self.array = some a ∧ a.kind = k ∧ a.count = items.length ∧
        Array_sq_length self = Outcome.ok items.length) ∧
    ((∃ self, Array_tp_new conv env arg0 (some arg1) = Outcome.ok self) ∨
      ∃ e, Array_tp_new conv env arg0 (some arg1) = Outcome.raised e) ∧
    ((∃ i, ∃ hi : i < items.length, ∃ e, conv.encode k (items.get ⟨i, hi⟩) = Except.error e) →
      ∃ e, Array_tp_new conv env arg0 (some arg1) = Outcome.raised e) := by
  rw [Array_tp_new_some conv env p arg0 _ _ hp h0, construct_sequence conv env _ items arg1 h1]
  have hiff := fun self2 => sequenceIngest_ok_iff conv env
    { ob_refcnt := 1, addr := p, array := some (ComArray.empty k) } self2 (ComArray.empty k)
    items rfl
  have hdef := sequenceIngest_defined conv env
    { ob_refcnt := 1, addr := p, array := some (ComArray.empty k) } (ComArray.empty k) items rfl
  -- what a successful construction says about the elements
  have hok : ∀ self2, sequenceIngest conv env
        { ob_refcnt := 1, addr := p, array := some (ComArray.empty k) } items = Outcome.ok self2 →
      items.length < 2 ^ 32 ∧ ∃ a0 a2, (ComArray.empty k).Alloc env items.length = Except.ok a0 ∧
        self2.array = some a2 ∧ a2.kind = k ∧ a2.count = items.length ∧
        ∀ i (hi : i < items.length), ∃ bs, conv.encode k (items.get ⟨i, hi⟩) = Except.ok bs := by
    intro self2 h
    obtain ⟨hl, a0, a2, hA, hS, h2⟩ := (hiff self2).1 h
    obtain ⟨hk0, hc0, _, hb0⟩ := Alloc_eq_ok env _ a0 _ hA
    have hk0k : a0.kind = k := hk0
    have hlen0 : a0.bytes.length = a0.count * ValueSize a0.kind := by
      rw [hb0, hc0, hk0, List.length_replicate]
    obtain ⟨hk2, hc2, _, _, _, hall⟩ := setLoop_ok_inv conv items _ 0 a0 a2 hS hlen0
    refine ⟨hl, a0, a2, hA, by rw [h2], hk2.trans hk0, hc2.trans hc0, ?_⟩
    intro i hi
    obtain ⟨_, v, hv, he⟩ := hall i (by omega) (by omega)
    rw [List.get?_eq_get hi] at hv
    injection hv with hv
    rw [hv, ← hk0k]
    exact ⟨_, he⟩
  refine ⟨⟨?_, ?_⟩, ?_, ?_, ?_⟩
  · rintro ⟨self2, h⟩
    obtain ⟨hl, a0, a2, hA, _, _, _, hall⟩ := hok self2 h
    obtain ⟨hk0, hc0, _, _⟩ := Alloc_eq_ok env _ a0 _ hA
    have hk0k : a0.kind = k := hk0
    refine ⟨hl, a0, hA, ?_⟩
    intro i hi
    obtain ⟨bs, he⟩ := hall i hi
    exact ⟨_, Set_ok_of conv a0 i _ bs (by omega) (by rw [hk0k]; exact he)⟩
  · rintro ⟨hl, a0, hA, hall⟩
    obtain ⟨hk0, hc0, _, _⟩ := Alloc_eq_ok env _ a0 _ hA
    obtain ⟨a2, hS⟩ := setLoop_ok_of conv items items.length 0 a0 (by omega) (by
      intro j _ hj
      have hj2 : j < items.length := by omega
      obtain ⟨a1, hs⟩ := hall j hj2
      obtain ⟨_, bs, he, _⟩ := Set_eq_ok conv a0 a1 j _ hs
      exact ⟨_, bs, List.get?_eq_get hj2, he⟩)
    exact ⟨_, (hiff _).2 ⟨hl, a0, a2, hA, hS, rfl⟩⟩
  · intro self2 h
    obtain ⟨_, a0, a2, _, h2, hk2, hc2, _⟩ := hok self2 h
    refine ⟨a2, h2, hk2, hc2, ?_⟩
    simp only [Array_sq_length, h2, hc2]
  · cases hr : sequenceIngest conv env
        { ob_refcnt := 1, addr := p, array := some (ComArray.empty k) } items with
    | ok self2 => exact Or.inl ⟨self2, rfl⟩
    | raised e => exact Or.inr ⟨e, rfl⟩
    | undefined => exact absurd hr hdef
  · rintro ⟨i, hi, e, he⟩
    cases hr : sequenceIngest conv env
        { ob_refcnt := 1, addr := p, array := some (ComArray.empty k) } items with
    | ok self2 =>
      obtain ⟨_, _, _, _, _, _, _, hall⟩ := hok self2 hr
      obtain ⟨bs, hb⟩ := hall i hi
      rw [he] at hb
      cases hb
    | raised e2 => exact ⟨e2, rfl⟩
    | undefined => exact absurd hr hdef

/-- The "B" array built from the list `[1, 2, 3]` in the sample process. -/
theorem sample_sequence :
    Array_tp_new sampleConverter sampleEnv (Arg0.str "B") (some (Arg1.list [1, 2, 3]))
      = Outcome.ok { ob_refcnt := 1, addr := 4096,
                     array := some { kind := ElementKind.UInt8, count := 3, data := 8192,
                                     bytes := [1, 2, 3] } } := by
  rfl

/-- C3, evaluated at the code "B" and the list `[1, 2, 3]` in the sample
process. -/
theorem Array_tp_new_sequence_witness :
    sampleEnv.tp_alloc = some 4096 ∧
    selectArray { ob_refcnt := 1, addr := 4096, array := none } (Arg0.str "B")
      = Except.ok { ob_refcnt := 1, addr := 4096,
                    array := some (ComArray.empty ElementKind.UInt8) } ∧
    ∃ a, (some { kind := ElementKind.UInt8, count := 3, data := 8192,
                 bytes := [1, 2, 3] } : Option ComArray) = some a ∧
      a.kind = ElementKind.UInt8 ∧ a.count = 3 ∧
      Array_sq_length { ob_refcnt := 1, addr := 4096,
                        array := some { kind := ElementKind.UInt8, count := 3, data := 8192,
                                        bytes := [1, 2, 3] } } = Outcome.ok 3 :=
  ⟨rfl, by simp [selectArray, formatKind],
    (Array_tp_new_sequence sampleConverter sampleEnv 4096 (Arg0.str "B") ElementKind.UInt8
      [1, 2, 3] (Arg1.list [1, 2, 3]) rfl (by simp [selectArray, formatKind])
      (Or.inl rfl)).2.1 _ sample_sequence⟩

/-- An object that has no `__index__`, or whose `__index__` raises
`TypeError`, and whose `PyObject_GetBuffer` succeeds goes to the buffer
path. -/
theorem construct_buffer {V : Type} (conv : Converter V) (env : Env) (self : Array)
    (tp_name : String) (idx : Option IndexResult) (src : Exported)
    (hidx : idx = none ∨ ∃ e, idx = some (IndexResult.raises e) ∧ e.exc = PyExc.TypeError) :
    construct conv env self (Arg1.object tp_name idx (some (Except.ok src)) : Arg1 V)
      = bufferIngest env self src := by
  rcases hidx with h | ⟨e, h, he⟩
  · subst h
    rfl
  · subst h
    simp [construct, PyNumber_AsSsize_t, he, ingest]

/-- The item size test of the buffer path. -/
theorem bufferIngest_itemsize (env : Env) (self : Array) (a : ComArray) (src : Exported)
    (ha : self.array = some a) (h : src.view.itemsize ≠ ValueSize a.kind) :
    bufferIngest env self src
      = Outcome.raised { exc := PyExc.TypeError, msg := "itemsize is incorrect" } := by
  simp only [bufferIngest, ha]
  rw [if_pos h]

/-- The format test of the buffer path. -/
theorem bufferIngest_format (env : Env) (self : Array) (a : ComArray) (src : Exported)
    (ha : self.array = some a) (h : src.view.itemsize = ValueSize a.kind)
    (hf : src.view.format = none ∨ src.view.format ≠ some (Format env a.kind)) :
    bufferIngest env self src
      = Outcome.raised { exc := PyExc.TypeError, msg := "format is incorrect" } := by
  have h1 : ¬ src.view.itemsize ≠ ValueSize a.kind := fun hn => hn h
  simp only [bufferIngest, ha]
  rw [if_neg h1, if_pos hf]

/-- The buffer path after both tests have passed. -/
theorem bufferIngest_checked (env : Env) (self : Array) (a : ComArray) (src : Exported)
    (ha : self.array = some a) (h : src.view.itemsize = ValueSize a.kind)
    (hf : src.view.format = some (Format env a.kind)) :
    bufferIngest env self src
      = if (src.view.len / ValueSize a.kind) % 2 ^ 32 ≠ src.view.len / ValueSize a.kind then
          Outcome.raised { exc := PyExc.OverflowError, msg := "count exceeds max size" }
        else
          match a.Alloc env ((src.view.len / ValueSize a.kind) % 2 ^ 32) with
          | Except.error e => Outcome.raised e
          | Except.ok a1 =>
            match PyBuffer_ToContiguous src (a1.count * ValueSize a1.kind) with
            | Except.error e => Outcome.raised e
            | Except.ok copied =>
              Outcome.ok { self with array := some { a1 with bytes := copied } } := by
  have h1 : ¬ src.view.itemsize ≠ ValueSize a.kind := fun hn => hn h
  have h2 : ¬ (src.view.format = none ∨ src.view.format ≠ some (Format env a.kind)) := by
    rw [hf]
    simp
  simp only [bufferIngest, ha]
  rw [if_neg h1, if_neg h2, h]

/-- C5. A buffer exporter as second argument (an object that is not used as
a count and whose `PyObject_GetBuffer` succeeded), for a resolved kind and an
allocated instance: when the item size of the view differs from the byte
width of the kind, the constructor fails with `TypeError` ("itemsize is
incorrect") and returns no object, whatever the format string, the length and
the memory of the exporter are. -/
theorem Array_tp_new_buffer_itemsize {V : Type} (conv : Converter V) (env : Env) (p : Nat)
    (arg0 : Arg0) (k : ElementKind) (tp_name : String) (idx : Option IndexResult)
    (src : Exported)
    (hp : env.tp_alloc = some p)
    (h0 : selectArray { ob_refcnt := 1, addr := p, array := none } arg0
        = Except.ok { ob_refcnt := 1, addr := p, array := some (ComArray.empty k) })
    (hidx : idx = none ∨ ∃ e, idx = some (IndexResult.raises e) ∧ e.exc = PyExc.TypeError)
    (hsize : src.view.itemsize ≠ ValueSize k) :
    Array_tp_new conv env arg0 (some (Arg1.object tp_name idx (some (Except.ok src))))
      = Outcome.raised { exc := PyExc.TypeError, msg := "itemsize is incorrect" } := by
  rw [Array_tp_new_some conv env p arg0 _ _ hp h0, construct_buffer conv env _ tp_name idx src hidx]
  exact bufferIngest_itemsize env _ (ComArray.empty k) src rfl hsize

/-- C5, evaluated at the code "H" (two-byte elements) and an exporter of
one-byte items in the sample process. -/
theorem Array_tp_new_buffer_itemsize_witness :
    sampleEnv.tp_alloc = some 4096 ∧
    selectArray { ob_refcnt := 1, addr := 4096, array := none } (Arg0.str "H")
      = Except.ok { ob_refcnt := 1, addr := 4096,
                    array := some (ComArray.empty ElementKind.UInt16) } ∧
    (sampleExport 1 (some "H") [1, 2]).view.itemsize ≠ ValueSize ElementKind.UInt16 ∧
    Array_tp_new sampleConverter sampleEnv (Arg0.str "H")
        (some (Arg1.object "bytes" none (some (Except.ok (sampleExport 1 (some "H") [1, 2])))))
      = Outcome.raised { exc := PyExc.TypeError, msg := "itemsize is incorrect" } :=
  ⟨rfl, by simp [selectArray, formatKind], by decide,
    Array_tp_new_buffer_itemsize sampleConverter sampleEnv 4096 (Arg0.str "H")
      ElementKind.UInt16 "bytes" none (sampleExport 1 (some "H") [1, 2]) rfl
      (by simp [selectArray, formatKind]) (Or.inl rfl) (by decide)⟩

/-- C6 (amended). A buffer exporter as second argument whose item size
matches the byte width of the resolved kind: the format check fails, with
`TypeError` ("format is incorrect"), if and only if the view has no format
string or has one that differs from the canonical descriptor of the kind. -/
theorem Array_tp_new_buffer_format {V : Type} (conv : Converter V) (env : Env) (p : Nat)
    (arg0 : Arg0) (k : ElementKind) (tp_name : String) (idx : Option IndexResult)
    (src : Exported)
    (hp : env.tp_alloc = some p)
    (h0 : selectArray { ob_refcnt := 1, addr := p, array := none } arg0
        = Except.ok { ob_refcnt := 1, addr := p, array := some (ComArray.empty k) })
    (hidx : idx = none ∨ ∃ e, idx = some (IndexResult.raises e) ∧ e.exc = PyExc.TypeError)
    (hsize : src.view.itemsize = ValueSize k) :
    Array_tp_new conv env arg0 (some (Arg1.object tp_name idx (some (Except.ok src))))
        = Outcome.raised { exc := PyExc.TypeError, msg := "format is incorrect" } ↔
      (src.view.format = none ∨ src.view.format ≠ some (Format env k)) := by
  rw [Array_tp_new_some conv env p arg0 _ _ hp h0, construct_buffer conv env _ tp_name idx src hidx]
  constructor
  · intro h
    by_contra hn
    have hf : src.view.format = some (Format env k) := by
      by_contra hne
      exact hn (Or.inr hne)
    rw [bufferIngest_checked env _ (ComArray.empty k) src rfl hsize hf] at h
    split at h
    · simp at h
    · split at h
      · rename_i e hA
        unfold ComArray.Alloc at hA
        split at hA
        · injection hA with hA
          rw [← hA] at h
          simp at h
        · split at hA
          · injection hA with hA
            rw [← hA] at h
            simp at h
          · cases hA
      · split at h
        · rename_i e hC
          unfold PyBuffer_ToContiguous at hC
          split at hC
          · injection hC with hC
            rw [← hC] at h
            simp at h
          · cases hC
        · cases h
  · intro hf
    exact bufferIngest_format env _ (ComArray.empty k) src rfl hsize hf

/-- C6 as stated fails: a one-byte exporter without a format string does not
pass the format check of a "B" array. -/
theorem Array_tp_new_buffer_format_counterexample :
    (sampleExport 1 none [1, 2]).view.format = none ∧
    (sampleExport 1 none [1, 2]).view.itemsize = ValueSize ElementKind.UInt8 ∧
    Array_tp_new sampleConverter sampleEnv (Arg0.str "B")
        (some (Arg1.object "bytes" none (some (Except.ok (sampleExport 1 none [1, 2])))))
      = Outcome.raised { exc := PyExc.TypeError, msg := "format is incorrect" } :=
  ⟨rfl, rfl, rfl⟩

/-- C6 (amended), evaluated at the code "B" and a one-byte exporter whose
format string is "b" in the sample process. -/
theorem Array_tp_new_buffer_format_witness :
    sampleEnv.tp_alloc = some 4096 ∧
    selectArray { ob_refcnt := 1, addr := 4096, array := none } (Arg0.str "B")
      = Except.ok { ob_refcnt := 1, addr := 4096,
                    array := some (ComArray.empty ElementKind.UInt8) } ∧
    (sampleExport 1 (some "b") [1, 2]).view.itemsize = ValueSize ElementKind.UInt8 ∧
    Array_tp_new sampleConverter sampleEnv (Arg0.str "B")
        (some (Arg1.object "bytes" none (some (Except.ok (sampleExport 1 (some "b") [1, 2])))))
      = Outcome.raised { exc := PyExc.TypeError, msg := "format is incorrect" } :=
  ⟨rfl, by simp [selectArray, formatKind], rfl,
    (Array_tp_new_buffer_format sampleConverter sampleEnv 4096 (Arg0.str "B")
      ElementKind.UInt8 "bytes" none (sampleExport 1 (some "b") [1, 2]) rfl
      (by simp [selectArray, formatKind]) (Or.inl rfl) rfl).2
      (Or.inr (by simp [sampleExport, Format]))⟩

/-- C7. A buffer exporter as second argument whose item size and format
string match the resolved kind: when the length of the view is not a multiple
of its item size the constructor raises and returns no object. -/
theorem Array_tp_new_buffer_length {V : Type} (conv : Converter V) (env : Env) (p : Nat)
    (arg0 : Arg0) (k : ElementKind) (tp_name : String) (idx : Option IndexResult)
    (src : Exported)
    (hp : env.tp_alloc = some p)
    (h0 : selectArray { ob_refcnt := 1, addr := p, array := none } arg0
        = Except.ok { ob_refcnt := 1, addr := p, array := some (ComArray.empty k) })
    (hidx : idx = none ∨ ∃ e, idx = some (IndexResult.raises e) ∧ e.exc = PyExc.TypeError)
    (hsize : src.view.itemsize = ValueSize k)
    (hformat : src.view.format = some (Format env k))
    (hlen : src.view.len % src.view.itemsize ≠ 0) :
    ∃ e, Array_tp_new conv env arg0 (some (Arg1.object tp_name idx (some (Except.ok src))))
      = Outcome.raised e := by
  rw [Array_tp_new_some conv env p arg0 _ _ hp h0, construct_buffer conv env _ tp_name idx src hidx,
    bufferIngest_checked env _ (ComArray.empty k) src rfl hsize hformat]
  rw [hsize] at hlen
  have hk : (ComArray.empty k).kind = k := rfl
  rw [hk]
  split
  · exact ⟨_, rfl⟩
  · rename_i hfit
    cases hA : (ComArray.empty k).Alloc env ((src.view.len / ValueSize k) % 2 ^ 32) with
    | error e => exact ⟨e, rfl⟩
    | ok a1 =>
      obtain ⟨hk1, hc1, _, _⟩ := Alloc_eq_ok env _ a1 _ hA
      have hk1k : a1.kind = k := hk1
      have hne : a1.count * ValueSize a1.kind ≠ src.view.len := by
        rw [hc1, hk1k]
        intro heq
        have hmod : src.view.len % ValueSize k = 0 := by
          rw [← heq]
          exact Nat.mul_mod_left _ _
        exact hlen hmod
      dsimp only
      unfold PyBuffer_ToContiguous
      rw [if_pos hne]
      exact ⟨_, rfl⟩

/-- C7, evaluated at the code "H" and an exporter of three bytes in two-byte
items in the sample process. -/
theorem Array_tp_new_buffer_length_witness :
    sampleEnv.tp_alloc = some 4096 ∧
    selectArray { ob_refcnt := 1, addr := 4096, array := none } (Arg0.str "H")
      = Except.ok { ob_refcnt := 1, addr := 4096,
                    array := some (ComArray.empty ElementKind.UInt16) } ∧
    (sampleExport 2 (some "H") [1, 2, 3]).view.itemsize = ValueSize ElementKind.UInt16 ∧
    (sampleExport 2 (some "H") [1, 2, 3]).view.format
      = some (Format sampleEnv ElementKind.UInt16) ∧
    (sampleExport 2 (some "H") [1, 2, 3]).view.len
      % (sampleExport 2 (some "H") [1, 2, 3]).view.itemsize ≠ 0 ∧
    ∃ e, Array_tp_new sampleConverter sampleEnv (Arg0.str "H")
        (some (Arg1.object "bytes" none
          (some (Except.ok (sampleExport 2 (some "H") [1, 2, 3])))))
      = Outcome.raised e :=
  ⟨rfl, by simp [selectArray, formatKind], rfl, rfl, by decide,
    Array_tp_new_buffer_length sampleConverter sampleEnv 4096 (Arg0.str "H")
      ElementKind.UInt16 "bytes" none (sampleExport 2 (some "H") [1, 2, 3]) rfl
      (by simp [selectArray, formatKind]) (Or.inl rfl) rfl rfl (by decide)⟩

/-- C8. A buffer exporter as second argument whose item size and format
string match the resolved kind and whose length is a multiple of its item
size. When `len / itemsize` is `2^32` or more the constructor fails with
`OverflowError`. Otherwise, when the storage is allocated, it returns an
array of `len / itemsize` elements whose bytes are the exporter's bytes in
order, `count * itemsize` of them; when the storage cannot be allocated it
fails with the allocator's error. -/
theorem Array_tp_new_buffer_copy {V : Type} (conv : Converter V) (env : Env) (p : Nat)
    (arg0 : Arg0) (k : ElementKind) (tp_name : String) (idx : Option IndexResult)
    (src : Exported)
    (hp : env.tp_alloc = some p)
    (h0 : selectArray { ob_refcnt := 1, addr := p, array := none } arg0
        = Except.ok { ob_refcnt := 1, addr := p, array := some (ComArray.empty k) })
    (hidx : idx = none ∨ ∃ e, idx = some (IndexResult.raises e) ∧ e.exc = PyExc.TypeError)
    (hsize : src.view.itemsize = ValueSize k)
    (hformat : src.view.format = some (Format env k))
    (hlen : src.view.len % src.view.itemsize = 0) :
    (2 ^ 32 ≤ src.view.len / src.view.itemsize →
      Array_tp_new conv env arg0 (some (Arg1.object tp_name idx (some (Except.ok src))))
        = Outcome.raised { exc := PyExc.OverflowError, msg := "count exceeds max size" }) ∧
    (src.view.len / src.view.itemsize < 2 ^ 32 →
      (∀ q, env.malloc (src.view.len / src.view.itemsize * src.view.itemsize) = some q →
        Array_tp_new conv env arg0 (some (Arg1.object tp_name idx (some (Except.ok src))))
            = Outcome.ok { ob_refcnt := 1, addr := p,
                           array := some { kind := k,
                                           count := src.view.len / src.view.itemsize,
                                           data := q, bytes := src.mem } }
          ∧ src.mem.length = src.view.len / src.view.itemsize * src.view.itemsize) ∧
      (env.malloc (src.view.len / src.view.itemsize * src.view.itemsize) = none →
        Array_tp_new conv env arg0 (some (Arg1.object tp_name idx (some (Except.ok src))))
          = Outcome.raised { exc := PyExc.MemoryError, msg := "" })) := by
  rw [Array_tp_new_some conv env p arg0 _ _ hp h0, construct_buffer conv env _ tp_name idx src hidx,
    bufferIngest_checked env _ (ComArray.empty k) src rfl hsize hformat]
  rw [hsize] at hlen ⊢
  have hk : (ComArray.empty k).kind = k := rfl
  rw [hk]
  have hexact : src.view.len / ValueSize k * ValueSize k = src.view.len :=
    Nat.div_mul_cancel (Nat.dvd_of_mod_eq_zero hlen)
  constructor
  · intro hbig
    have h1 : (src.view.len / ValueSize k) % 2 ^ 32 ≠ src.view.len / ValueSize k := by
      intro h
      have hlt := Nat.mod_lt (src.view.len / ValueSize k) (show 0 < 2 ^ 32 by decide)
      rw [h] at hlt
      exact absurd hlt (Nat.not_lt.mpr hbig)
    rw [if_pos h1]
  · intro hfit
    have h2 : (src.view.len / ValueSize k) % 2 ^ 32 = src.view.len / ValueSize k :=
      Nat.mod_eq_of_lt hfit
    have h1 : ¬ (src.view.len / ValueSize k) % 2 ^ 32 ≠ src.view.len / ValueSize k :=
      fun hn => hn h2
    rw [if_neg h1, h2, Alloc_empty env k _ hfit]
    constructor
    · intro q hq
      rw [hq]
      dsimp only
      have h3 : ¬ src.view.len / ValueSize k * ValueSize k ≠ src.view.len := fun hn => hn hexact
      unfold PyBuffer_ToContiguous
      rw [if_neg h3]
      exact ⟨rfl, by rw [src.mem_length, hexact]⟩
    · intro hq
      rw [hq]

/-- C8, evaluated at the code "H" and an exporter of four bytes in two-byte
items in the sample process. -/
theorem Array_tp_new_buffer_copy_witness :
    sampleEnv.tp_alloc = some 4096 ∧
    selectArray { ob_refcnt := 1, addr := 4096, array := none } (Arg0.str "H")
      = Except.ok { ob_refcnt := 1, addr := 4096,
                    array := some (ComArray.empty ElementKind.UInt16) } ∧
    (sampleExport 2 (some "H") [1, 2, 3, 4]).view.itemsize = ValueSize ElementKind.UInt16 ∧
    (sampleExport 2 (some "H") [1, 2, 3, 4]).view.format
      = some (Format sampleEnv ElementKind.UInt16) ∧
    (sampleExport 2 (some "H") [1, 2, 3, 4]).view.len
      % (sampleExport 2 (some "H") [1, 2, 3, 4]).view.itemsize = 0 ∧
    Array_tp_new sampleConverter sampleEnv (Arg0.str "H")
        (some (Arg1.object "bytes" none
          (some (Except.ok (sampleExport 2 (some "H") [1, 2, 3, 4])))))
      = Outcome.ok { ob_refcnt := 1, addr := 4096,
                     array := some { kind := ElementKind.UInt16, count := 2, data := 8192,
                                     bytes := [1, 2, 3, 4] } } :=
  ⟨rfl, by simp [selectArray, formatKind], rfl, rfl, by decide,
    (((Array_tp_new_buffer_copy sampleConverter sampleEnv 4096 (Arg0.str "H")
      ElementKind.UInt16 "bytes" none (sampleExport 2 (some "H") [1, 2, 3, 4]) rfl
      (by simp [selectArray, formatKind]) (Or.inl rfl) rfl rfl (by decide)).2
        (by decide)).1 8192 rfl).1⟩

/-! ### Buffer export -/

/-- C9. A request that includes `PyBUF_WRITABLE` fails for every wrapper
object, whatever its storage: `Array_bf_getbuffer` returns -1 with
`BufferError` ("Array is not writable."), the owner field of the view is
null and its other fields are as the caller left them, and the wrapper object
is unchanged (same reference count, same storage). -/
theorem Array_bf_getbuffer_writable (env : Env) (self : Array) (view : Py_buffer)
    (flags : Nat) (hw : flags &&& PyBUF_WRITABLE = PyBUF_WRITABLE) :
    Array_bf_getbuffer env self view flags
      = Outcome.ok { ret := -1,
                     err := some { exc := PyExc.BufferError, msg := "Array is not writable." },
                     self := self,
                     view := { view with obj := none } } := by
  simp only [Array_bf_getbuffer]
  rw [if_pos hw]

/-- C9, evaluated at an empty "B" array and the flags `PyBUF_FULL`
(`0x011D`). -/
theorem Array_bf_getbuffer_writable_witness :
    0x011D &&& PyBUF_WRITABLE = PyBUF_WRITABLE ∧
    Array_bf_getbuffer sampleEnv
        { ob_refcnt := 1, addr := 4096, array := some (ComArray.empty ElementKind.UInt8) }
        (sampleExport 1 none []).view 0x011D
      = Outcome.ok { ret := -1,
                     err := some { exc := PyExc.BufferError, msg := "Array is not writable." },
                     self := { ob_refcnt := 1, addr := 4096,
                               array := some (ComArray.empty ElementKind.UInt8) },
                     view := { (sampleExport 1 none []).view with obj := none } } :=
  ⟨by decide, Array_bf_getbuffer_writable sampleEnv _ _ 0x011D (by decide)⟩

/-- C10. A request without `PyBUF_WRITABLE`, on a wrapper object that owns a
storage: `Array_bf_getbuffer` returns 0 with no exception and fills the view
as a read-only, one-dimensional view whose pointer is the data pointer of the
storage, whose item size is the byte width of the kind and whose length is
`count * itemsize`; the shape is `[count]` when `PyBUF_ND` is requested and
null otherwise, the strides are `[itemsize]` when `PyBUF_STRIDES` is
requested and null otherwise, the format is the canonical descriptor of the
kind when `PyBUF_FORMAT` is requested and null otherwise, the suboffsets are
null, and the storage of the wrapper object is the same as before. -/
theorem Array_bf_getbuffer_fields (env : Env) (self : Array) (a : ComArray)
    (view : Py_buffer) (flags : Nat) (ha : self.array = some a)
    (hw : flags &&& PyBUF_WRITABLE ≠ PyBUF_WRITABLE) :
    ∃ r, Array_bf_getbuffer env self view flags = Outcome.ok r ∧
      r.ret = 0 ∧ r.err = none ∧ r.self.array = some a ∧
      r.view.readonly = 1 ∧ r.view.ndim = 1 ∧ r.view.buf = a.data ∧
      r.view.itemsize = ValueSize a.kind ∧ r.view.len = a.count * r.view.itemsize ∧
      r.view.shape = (if flags &&& PyBUF_ND = PyBUF_ND then some [a.count] else none) ∧
      r.view.strides
        = (if flags &&& PyBUF_STRIDES = PyBUF_STRIDES then some [r.view.itemsize] else none) ∧
      r.view.format
        = (if flags &&& PyBUF_FORMAT = PyBUF_FORMAT then some (Format env a.kind) else none) ∧
      r.view.suboffsets = none := by
  simp only [Array_bf_getbuffer]
  rw [if_neg hw, ha]
  exact ⟨_, rfl, rfl, rfl, rfl, rfl, rfl, rfl, rfl, rfl, rfl, rfl, rfl, rfl⟩

/-- C10, evaluated at the "B" array built from `[1, 2, 3]` and the flags
`PyBUF_FULL_RO` (`0x011C`): the view has length 3, item size 1, shape `[3]`,
strides `[1]` and format "B", and points at the storage holding 1, 2, 3. -/
theorem Array_bf_getbuffer_fields_witness :
    0x011C &&& PyBUF_WRITABLE ≠ PyBUF_WRITABLE ∧
    ∃ r, Array_bf_getbuffer sampleEnv
          { ob_refcnt := 1, addr := 4096,
            array := some { kind := ElementKind.UInt8, count := 3, data := 8192,
                            bytes := [1, 2, 3] } }
          (sampleExport 1 none []).view 0x011C = Outcome.ok r ∧
      r.ret = 0 ∧ r.err = none ∧
      r.self.array = some { kind := ElementKind.UInt8, count := 3, data := 8192,
                            bytes := [1, 2, 3] } ∧
      r.view.readonly = 1 ∧ r.view.ndim = 1 ∧ r.view.buf = 8192 ∧
      r.view.itemsize = 1 ∧ r.view.len = 3 * r.view.itemsize ∧
      r.view.shape = some [3] ∧ r.view.strides = some [r.view.itemsize] ∧
      r.view.format = some "B" ∧ r.view.suboffsets = none :=
  ⟨by decide,
    Array_bf_getbuffer_fields sampleEnv
      { ob_refcnt := 1, addr := 4096,
        array := some { kind := ElementKind.UInt8, count := 3, data := 8192,
                        bytes := [1, 2, 3] } }
      { kind := ElementKind.UInt8, count := 3, data := 8192, bytes := [1, 2, 3] }
      (sampleExport 1 none []).view 0x011C rfl (by decide)⟩


/-! ### Lifetime of views -/

/-- Every action of the host keeps the reference-count invariant. -/
theorem step_Pinned (env : Env) (self0 : Array) (w w1 : Host) (act : Action)
    (hinv : Pinned self0 w) (hstep : step env w act = some w1) : Pinned self0 w1 := by
  obtain ⟨ws, wv, wo⟩ := w
  cases ws with
  | none =>
    cases act <;> simp [step] at hstep
  | some s =>
    simp only [Pinned] at hinv
    obtain ⟨hpos, hcnt, haddr, harr, hviews⟩ := hinv
    cases act with
    | getbuffer view flags =>
      simp only [step, Array_bf_getbuffer] at hstep
      by_cases hw : flags &&& PyBUF_WRITABLE = PyBUF_WRITABLE
      · rw [if_pos hw] at hstep
        simp at hstep
        subst hstep
        exact ⟨hpos, hcnt, haddr, harr, hviews⟩
      · rw [if_neg hw] at hstep
        cases ha : s.array with
        | none =>
          rw [ha] at hstep
          simp at hstep
        | some a =>
          rw [ha] at hstep
          simp at hstep
          subst hstep
          refine ⟨Nat.succ_pos _, ?_, haddr, ha.symm.trans harr, ?_⟩
          · simp only [List.length_cons]
            omega
          · intro v hv
            rcases List.mem_cons.1 hv with h | h
            · subst h
              exact ⟨rfl, a, by rw [← harr, ha], rfl⟩
            · exact hviews v h
    | release i =>
      simp only [step] at hstep
      cases hv : wv.get? i with
      | none =>
        rw [hv] at hstep
        simp at hstep
      | some v =>
        rw [hv] at hstep
        simp only [Option.some.injEq] at hstep
        subst hstep
        obtain ⟨hi, hget⟩ := List.get?_eq_some.1 hv
        have hmem : v ∈ wv := hget ▸ List.get_mem wv i hi
        have hobj := (hviews v hmem).1
        have hlen : (wv.eraseIdx i).length = wv.length - 1 := List.length_eraseIdx_of_lt hi
        simp only [PyBuffer_Release, hobj, Py_DECREF, Array_tp_dealloc]
        by_cases hz : s.ob_refcnt - 1 = 0
        · rw [if_pos hz]
          simp only [Pinned]
          exact ⟨List.length_eq_zero.1 (by omega), by omega⟩
        · rw [if_neg hz]
          simp only [Pinned]
          refine ⟨by omega, by omega, haddr, harr, ?_⟩
          intro v1 hv1
          exact hviews v1 (List.mem_of_mem_eraseIdx hv1)
    | incref =>
      simp only [step, Option.some.injEq] at hstep
      subst hstep
      simp only [Pinned]
      exact ⟨by omega, by omega, haddr, harr, hviews⟩
    | decref =>
      simp only [step] at hstep
      by_cases ho : wo = 0
      · rw [if_pos ho] at hstep
        cases hstep
      · rw [if_neg ho] at hstep
        simp only [Option.some.injEq] at hstep
        subst hstep
        simp only [Py_DECREF, Array_tp_dealloc]
        by_cases hz : s.ob_refcnt - 1 = 0
        · rw [if_pos hz]
          simp only [Pinned]
          exact ⟨List.length_eq_zero.1 (by omega), by omega⟩
        · rw [if_neg hz]
          simp only [Pinned]
          exact ⟨by omega, by omega, haddr, harr, hviews⟩

/-- Every sequence of actions of the host keeps the reference-count
invariant. -/
theorem run_Pinned (env : Env) (self0 : Array) :
    ∀ (acts : List Action) (w w1 : Host), Pinned self0 w → run env w acts = some w1 →
      Pinned self0 w1 := by
  intro acts
  induction acts with
  | nil =>
    intro w w1 hinv hrun
    simp only [run, Option.some.injEq] at hrun
    subst hrun
    exact hinv
  | cons act acts ih =>
    intro w w1 hinv hrun
    simp only [run] at hrun
    cases hs : step env w act with
    | none =>
      rw [hs] at hrun
      cases hrun
    | some w2 =>
      rw [hs] at hrun
      exact ih w2 w1 (step_Pinned env self0 w w2 act hinv hs) hrun


/-- C11. For a wrapper object with a positive reference count. A successful
`Array_bf_getbuffer` call adds exactly one to the reference count, records
the object as owner of the view and leaves address and storage alone, and
`PyBuffer_Release` of that view gives back the object as it was. In every
state the host reaches by requesting views, releasing views, and taking and
dropping references of its own, the reference count of the object is the
number of references owned elsewhere plus the number of outstanding views;
while a view is outstanding the object exists, with its storage unchanged,
and is the owner of every outstanding view; and releasing an outstanding view
lowers the reference count by exactly one, deallocating the object only when
that was the last reference and no view is left. -/
theorem Array_bf_getbuffer_pins (env : Env) (self : Array) (hpos : 0 < self.ob_refcnt) :
    (∀ view flags r, Array_bf_getbuffer env self view flags = Outcome.ok r → r.ret = 0 →
      r.self.ob_refcnt = self.ob_refcnt + 1 ∧ r.view.obj = some self.addr ∧
      r.self.addr = self.addr ∧ r.self.array = self.array ∧
      PyBuffer_Release r.self r.view = (some self, { r.view with obj := none })) ∧
    (∀ acts w,
      run env { self := some self, views := [], owned := self.ob_refcnt } acts = some w →
      (∀ s, w.self = some s → s.ob_refcnt = w.owned + w.views.length) ∧
      (w.views ≠ [] →
        ∃ s, w.self = some s ∧ w.views.length ≤ s.ob_refcnt ∧ s.array = self.array ∧
          ∀ v, v ∈ w.views → v.obj = some s.addr) ∧
      (∀ i v, w.views.get? i = some v →
        ∃ s w1, w.self = some s ∧ step env w (Action.release i) = some w1 ∧
          w1.views.length + 1 = w.views.length ∧ w1.owned = w.owned ∧
          (∀ s1, w1.self = some s1 → s1.ob_refcnt + 1 = s.ob_refcnt) ∧
          (w1.self = none → s.ob_refcnt = 1 ∧ w1.views = []))) := by
  constructor
  · intro view flags r hr hret
    simp only [Array_bf_getbuffer] at hr
    by_cases hw : flags &&& PyBUF_WRITABLE = PyBUF_WRITABLE
    · rw [if_pos hw] at hr
      injection hr with hr
      subst hr
      simp at hret
    · rw [if_neg hw] at hr
      cases ha : self.array with
      | none =>
        rw [ha] at hr
        cases hr
      | some a =>
        rw [ha] at hr
        injection hr with hr
        subst hr
        have hne : ¬ (self.ob_refcnt + 1 - 1 = 0) := by omega
        refine ⟨rfl, rfl, rfl, rfl, ?_⟩
        simp only [PyBuffer_Release, Py_DECREF]
        rw [if_neg hne]
        obtain ⟨rc, ad, ar⟩ := self
        simp only at ha
        subst ha
        simp
  · intro acts w hrun
    have hinit : Pinned self { self := some self, views := [], owned := self.ob_refcnt } := by
      show 0 < self.ob_refcnt ∧ self.ob_refcnt = self.ob_refcnt + 0 ∧ self.addr = self.addr ∧
        self.array = self.array ∧ ∀ v, v ∈ ([] : List Py_buffer) →
          v.obj = some self.addr ∧ ∃ a, self.array = some a ∧ v.buf = a.data
      exact ⟨hpos, rfl, rfl, rfl, fun v hv => absurd hv (List.not_mem_nil v)⟩
    have hinv := run_Pinned env self acts _ w hinit hrun
    obtain ⟨ws, wv, wo⟩ := w
    cases ws with
    | none =>
      simp only [Pinned] at hinv
      obtain ⟨hv, _⟩ := hinv
      subst hv
      refine ⟨fun s hs => (by cases hs), fun h => absurd rfl h, ?_⟩
      intro i v hv
      cases hv
    | some s =>
      simp only [Pinned] at hinv
      obtain ⟨hp, hcnt, haddr, harr, hviews⟩ := hinv
      refine ⟨?_, ?_, ?_⟩
      · intro s1 hs1
        injection hs1 with hs1
        subst hs1
        exact hcnt
      · intro _
        dsimp only
        exact ⟨s, rfl, by omega, harr, fun v hv => (hviews v hv).1⟩
      · intro i v hv
        simp only at hv
        obtain ⟨hi, hget⟩ := List.get?_eq_some.1 hv
        have hmem : v ∈ wv := hget ▸ List.get_mem wv i hi
        have hobj := (hviews v hmem).1
        have hlen : (wv.eraseIdx i).length = wv.length - 1 := List.length_eraseIdx_of_lt hi
        refine ⟨s, { self := (PyBuffer_Release s v).1, views := wv.eraseIdx i, owned := wo },
          rfl, by simp only [step, hv], ?_, rfl, ?_, ?_⟩
        · dsimp only
          omega
        · intro s1 hs1
          simp only [PyBuffer_Release, hobj, Py_DECREF, Array_tp_dealloc] at hs1
          by_cases hz : s.ob_refcnt - 1 = 0
          · rw [if_pos hz] at hs1
            cases hs1
          · rw [if_neg hz] at hs1
            injection hs1 with hs1
            subst hs1
            simp only
            omega
        · intro hnone
          simp only [PyBuffer_Release, hobj, Py_DECREF, Array_tp_dealloc] at hnone
          by_cases hz : s.ob_refcnt - 1 = 0
          · dsimp only
            exact ⟨by omega, List.length_eq_zero.1 (by omega)⟩
          · rw [if_neg hz] at hnone
            cases hnone

/-- C11, evaluated on the "B" array built from `[1, 2, 3]`: two views are
requested, the constructor's caller drops its reference, and the second view
is released. One view is left, and the object is alive with reference
count 1. -/
theorem Array_bf_getbuffer_pins_witness :
    0 < sampleArray.ob_refcnt ∧
    run sampleEnv { self := some sampleArray, views := [], owned := sampleArray.ob_refcnt }
        [Action.getbuffer (sampleExport 1 none []).view 0x011C,
         Action.getbuffer (sampleExport 1 none []).view 0,
         Action.decref, Action.release 0]
      = some { self := some sampleArray,
               views := [{ buf := 8192, obj := some 4096, len := 3, itemsize := 1,
                           readonly := 1, ndim := 1, format := some "B", shape := some [3],
                           strides := some [1], suboffsets := none, internal := 3 }],
               owned := 0 } ∧
    ∃ s, (some sampleArray : Option Array) = some s ∧ 1 ≤ s.ob_refcnt ∧
      s.array = sampleArray.array ∧
      ∀ v, v ∈ [({ buf := 8192, obj := some 4096, len := 3, itemsize := 1,
                   readonly := 1, ndim := 1, format := some "B", shape := some [3],
                   strides := some [1], suboffsets := none, internal := 3 } : Py_buffer)] →
        v.obj = some s.addr :=
  ⟨by decide, rfl,
    ((Array_bf_getbuffer_pins sampleEnv sampleArray (by decide)).2
      [Action.getbuffer (sampleExport 1 none []).view 0x011C,
       Action.getbuffer (sampleExport 1 none []).view 0,
       Action.decref, Action.release 0]
      { self := some sampleArray,
        views := [{ buf := 8192, obj := some 4096, len := 3, itemsize := 1,
                    readonly := 1, ndim := 1, format := some "B", shape := some [3],
                    strides := some [1], suboffsets := none, internal := 3 }],
        owned := 0 } rfl).2.1 (by simp)⟩


/-! ### Type descriptors and the construction hook -/

/-- With a null `self->array` and a second argument the constructor never
returns an object: it raises or dereferences the null pointer. -/
theorem construct_null_storage {V : Type} (conv : Converter V) (env : Env) (self : Array)
    (arg1 : Arg1 V) (hnull : self.array = none) (r : Array) :
    construct conv env self arg1 ≠ Outcome.ok r := by
  have hsized : ∀ n, sizedConstruct env self n ≠ Outcome.ok r := by
    intro n h
    simp only [sizedConstruct, hnull] at h
    split at h
    · cases h
    · split at h <;> cases h
  have hseq : ∀ items : List V, sequenceIngest conv env self items ≠ Outcome.ok r := by
    intro items h
    simp only [sequenceIngest, hnull] at h
    split at h <;> cases h
  have hbuf : ∀ src, bufferIngest env self src ≠ Outcome.ok r := by
    intro src h
    simp only [bufferIngest, hnull] at h
    cases h
  have hing : ∀ a1 : Arg1 V, ingest conv env self a1 ≠ Outcome.ok r := by
    intro a1
    cases a1 with
    | list items => exact hseq items
    | tuple items => exact hseq items
    | object tp idx bf =>
      cases bf with
      | none => intro h; cases h
      | some res =>
        cases res with
        | error e => intro h; cases h
        | ok src => exact hbuf src
  cases arg1 with
  | list items => exact hseq items
  | tuple items => exact hseq items
  | object tp idx bf =>
    cases idx with
    | none => exact hing (Arg1.object tp none bf)
    | some ix =>
      intro h
      simp only [construct] at h
      split at h
      · split at h
        · split at h
          · exact hing _ h
          · cases h
        · exact hsized _ h
      · exact hsized _ h

/-- C12: the code at the failing input. A type whose hook returns normally
without installing a storage, and no second argument: the constructor returns
an object whose `array` pointer is null, on which `Array_sq_length` is
undefined. With a second argument the same descriptor gives no object: the
null pointer is dereferenced. -/
theorem Array_tp_new_hook_null_storage :
    Array_tp_new sampleConverter sampleEnv
        (Arg0.type (hookType "Widget" TypeIdentity.unrelated none)) none
      = Outcome.ok { ob_refcnt := 1, addr := 4096, array := none } ∧
    Array_sq_length { ob_refcnt := 1, addr := 4096, array := none } = Outcome.undefined ∧
    Array_tp_new sampleConverter sampleEnv
        (Arg0.type (hookType "Widget" TypeIdentity.unrelated none)) (some (Arg1.list [1]))
      = Outcome.undefined :=
  ⟨rfl, rfl, rfl⟩


end WinrtArray
